import Mathlib

set_option maxRecDepth 100000
set_option linter.unusedVariables false

/-!
Verification of the nodewise process supervisor and error-explanation
pipeline, shallowly embedded from the JavaScript sources:

* `src/runner.js` — the `Runner` class (child-process supervision, file
  watcher, restart logic, error-trigger debouncing) and the explainer
  router `explain`;
* `src/explainer/normal.js` — the local pattern backend wrapper
  `explainWithNormal`;
* `src/explainer/interactive.js` — the interactive prompt state and
  `cancelActivePrompt`;
* `src/errorPatterns.js` (bundled into `src/index.js`) — the ordered
  pattern table, `findErrorPattern` and `getErrorExplanation`;
* `src/config.js` — the configuration record shape.

JavaScript regexes used by the pattern table are alternations of
case-insensitive literals interleaved with the wildcards `.*`, `.?` and
`\d+`; they are embedded as lists of `Atom` sequences and matched by an
executable suffix-set matcher mirroring `RegExp.prototype.test`
(unanchored search; `.` does not cross line terminators).
-/

/-- Line terminators that JavaScript `.` (without the `s` flag) does not
match: LF, CR, LS, PS. -/
def isLineTerm (c : Char) : Bool :=
  c = '\n' || c = '\r' || c = '\u2028' || c = '\u2029'

/-- One syntactic unit of a pattern-table regex branch.
`lit s` is a literal run matched case-insensitively (the `/i` flag);
`gap` is `.*`; `anyOpt` is `.?`; `digitPlus` is `\d+`. -/
inductive Atom where
  | lit (s : String)
  | gap
  | anyOpt
  | digitPlus
deriving DecidableEq, Repr

/-- Case-insensitive consumption of the literal `l` from the front of
`s`: returns the remaining suffix when `l` is an initial segment of `s`
up to ASCII case. -/
def litDrop : List Char → List Char → Option (List Char)
  | [], s => some s
  | _ :: _, [] => none
  | c :: cl, x :: xs => if c.toLower = x.toLower then litDrop cl xs else none

/-- Suffixes reachable from `s` by letting `.*` consume zero or more
characters (stopping at line terminators, which JS `.` cannot match). -/
def gapSuffixes : List Char → List (List Char)
  | [] => [[]]
  | x :: xs => (x :: xs) :: (if isLineTerm x then [] else gapSuffixes xs)

/-- Suffixes reachable from `s` by letting `\d+` consume one or more
leading ASCII digits. -/
def digitPlusSuffixes : List Char → List (List Char)
  | [] => []
  | x :: xs => if x.isDigit then xs :: digitPlusSuffixes xs else []

/-- Suffixes reachable by matching a single atom at the front of `s`. -/
def stepAtom (a : Atom) (s : List Char) : List (List Char) :=
  match a with
  | Atom.lit l =>
    match litDrop l.data s with
    | none => []
    | some s' => [s']
  | Atom.gap => gapSuffixes s
  | Atom.anyOpt =>
    s :: (match s with
          | [] => []
          | x :: xs => if isLineTerm x then [] else [xs])
  | Atom.digitPlus => digitPlusSuffixes s

/-- A branch (one alternative of a regex) matches starting exactly at the
front of `s` when its atoms can consume successive segments of `s`. -/
def matchAtoms (as : List Atom) (s : List Char) : Bool :=
  match as with
  | [] => true
  | a :: rest => (stepAtom a s).any (fun s' => matchAtoms rest s')

/-- All suffixes of `s`, longest first: the candidate start positions of
an unanchored regex search. -/
def allSuffixes : List Char → List (List Char)
  | [] => [[]]
  | x :: xs => (x :: xs) :: allSuffixes xs

/-- A branch matches somewhere inside `s` (unanchored, as
`RegExp.prototype.test` does). -/
def testBranch (as : List Atom) (s : List Char) : Bool :=
  (allSuffixes s).any (matchAtoms as)

/-- `re.test(errorText)` for a pattern-table regex given as its list of
alternation branches. -/
def testRegex (branches : List (List Atom)) (errorText : String) : Bool :=
  branches.any (fun b => testBranch b errorText.data)

/-- One entry of the `errorPatterns` table in `errorPatterns.js`:
`\x7b name, match, explain \x7d`.  The `template` field holds the
backtick template with the source's `.trim()` already applied; the
`explain` arrow ignores its argument (no template interpolates the
error text). -/
structure ErrorPattern where
  name : String
  branches : List (List Atom)
  template : String
deriving DecidableEq, Repr

/-- `explain: (error) => template.trim()` — constant in its argument. -/
def ErrorPattern.explain (p : ErrorPattern) (_errorText : String) : String :=
  p.template

/- The pattern table (errorPatterns.js): 157 ordered entries. -/

-- source match: /Cannot find module|MODULE_NOT_FOUND/i
def pat0 : ErrorPattern :=
  { name := "MODULE_NOT_FOUND"
  , branches := [[Atom.lit "Cannot find module"], [Atom.lit "MODULE_NOT_FOUND"]]
  , template := "This error occurs when you try to import or require a file or package that doesn\x27t exist.\n\nCommon causes:\n- Typo in the module name or path\n- Package not installed (missing from node_modules)\n- Incorrect relative path\n\nSolution:\n1. Check the spelling of the module name\n2. If it\x27s a package, run: npm install <package-name>\n3. Verify the file path if using relative imports" }

-- source match: /ReferenceError|is not defined/i
def pat1 : ErrorPattern :=
  { name := "REFERENCE_ERROR"
  , branches := [[Atom.lit "ReferenceError"], [Atom.lit "is not defined"]]
  , template := "You\x27re trying to use a variable that doesn\x27t exist or hasn\x27t been declared.\n\nCommon causes:\n- Variable name typo\n- Variable used before declaration\n- Variable declared in a different scope\n- Missing \x27require\x27 or \x27import\x27 statement\n\nSolution:\n1. Check spelling of variable names\n2. Ensure variable is declared before using it\n3. Check variable scope (is it defined in the right block?)\n4. Make sure you\x27ve imported/required dependencies" }

-- source match: /TypeError|Cannot read property|Cannot read properties/i
def pat2 : ErrorPattern :=
  { name := "TYPE_ERROR"
  , branches :=
      [ [Atom.lit "TypeError"]
      , [Atom.lit "Cannot read property"]
      , [Atom.lit "Cannot read properties"] ]
  , template := "You\x27re trying to call a method or access a property on something that doesn\x27t have it.\n\nCommon causes:\n- Accessing property on null or undefined\n- Calling a method on non-object type\n- Wrong method name\n\nSolution:\n1. Add null/undefined checks: if (obj && obj.property)\n2. Use optional chaining: obj?.property or obj?.method?.()\n3. Verify the object has the method you\x27re calling\n4. Check API documentation for correct method names" }

-- source match: /SyntaxError|Unexpected token|Unexpected identifier/i
def pat3 : ErrorPattern :=
  { name := "SYNTAX_ERROR"
  , branches :=
      [ [Atom.lit "SyntaxError"]
      , [Atom.lit "Unexpected token"]
      , [Atom.lit "Unexpected identifier"] ]
  , template := "There\x27s a syntax error in your JavaScript code - something is written incorrectly.\n\nCommon causes:\n- Missing closing bracket, parenthesis, or brace\n- Incorrect operator usage\n- Invalid JSON being parsed\n- Mixing tabs and spaces (in some cases)\n\nSolution:\n1. Look at the line number mentioned in the error\n2. Check for missing brackets: \x7b\x7d, (), []\n3. Verify semicolons where required\n4. Use a code formatter like Prettier to auto-fix formatting" }

-- source match: /EADDRINUSE|address already in use|Port .* is already in use/i
def pat4 : ErrorPattern :=
  { name := "EADDRINUSE"
  , branches :=
      [ [Atom.lit "EADDRINUSE"]
      , [Atom.lit "address already in use"]
      , [Atom.lit "Port ", Atom.gap, Atom.lit " is already in use"] ]
  , template := "The port you\x27re trying to bind to is already in use by another process.\n\nCommon causes:\n- Another instance of your app is running\n- Another service is using that port\n- Previous process didn\x27t fully close\n\nSolution:\n1. Find and kill the process using the port:\n   On Mac/Linux: lsof -i :PORT_NUMBER | grep LISTEN | awk \x27\x7bprint \x242\x7d\x27 | xargs kill\n   On Windows: netstat -ano | findstr :PORT_NUMBER\n2. Change port in your code: process.env.PORT || 3000\n3. Use dynamic port: const port = 3000, then increment if in use" }

-- source match: /ECONNREFUSED|Connection refused|ECONNREFUSED.*127\.0\.0\.1/i
def pat5 : ErrorPattern :=
  { name := "ECONNREFUSED"
  , branches :=
      [ [Atom.lit "ECONNREFUSED"]
      , [Atom.lit "Connection refused"]
      , [Atom.lit "ECONNREFUSED", Atom.gap, Atom.lit "127.0.0.1"] ]
  , template := "Connection was refused - the server you\x27re trying to connect to isn\x27t running or listening.\n\nCommon causes:\n- Database server isn\x27t running (MongoDB, PostgreSQL, etc.)\n- API server isn\x27t started\n- Wrong host or port\n- Firewall blocking connection\n\nSolution:\n1. Verify the server is running on the correct port\n2. Check host and port configuration\n3. Add connection error handling:\n   client.on(\x27error\x27, (err) => console.error(\x27Cannot connect\x27))\n4. Use retry logic for resilience" }

-- source match: /EACCES|permission denied|Error: EACCES/i
def pat6 : ErrorPattern :=
  { name := "EACCES"
  , branches :=
      [ [Atom.lit "EACCES"]
      , [Atom.lit "permission denied"]
      , [Atom.lit "Error: EACCES"] ]
  , template := "Permission denied - you don\x27t have permission to access a file or resource.\n\nCommon causes:\n- Insufficient file permissions\n- Running without required privileges\n- Reading/writing to protected directory\n\nSolution:\n1. Check file/folder permissions: ls -l (Mac/Linux)\n2. Change permissions: chmod +x filename\n3. Run with sudo if necessary (last resort)\n4. Ensure app runs with correct user permissions" }

-- source match: /ENOENT|no such file or directory|ENOENT.*no such file/i
def pat7 : ErrorPattern :=
  { name := "ENOENT"
  , branches :=
      [ [Atom.lit "ENOENT"]
      , [Atom.lit "no such file or directory"]
      , [Atom.lit "ENOENT", Atom.gap, Atom.lit "no such file"] ]
  , template := "The file or directory you\x27re trying to access doesn\x27t exist.\n\nCommon causes:\n- Wrong file path\n- File hasn\x27t been created yet\n- File was deleted\n- Typo in filename\n\nSolution:\n1. Verify the file path exists\n2. Check if file is created before reading: fs.existsSync(path)\n3. Use absolute paths instead of relative\n4. Ensure the directory exists before creating files" }

-- source match: /ERR_HTTP_HEADERS_SENT|Cannot set headers after they are sent/i
def pat8 : ErrorPattern :=
  { name := "ERR_HTTP_HEADERS_SENT"
  , branches :=
      [ [Atom.lit "ERR_HTTP_HEADERS_SENT"]
      , [Atom.lit "Cannot set headers after they are sent"] ]
  , template := "You tried to send headers or response twice in the same HTTP request.\n\nCommon causes:\n- Calling res.send() twice\n- Calling res.end() after already sending response\n- Multiple res.redirect() calls\n- No return after res.send()\n\nSolution:\n1. Add return after res.send(): return res.send(data)\n2. Use if/else to ensure response is sent only once\n3. Check for early return: if (condition) \x7b return res.send() \x7d\n4. Use middleware properly - don\x27t send response in multiple places" }

-- source match: /JSON\.parse|Unexpected token.*JSON|SyntaxError.*JSON/i
def pat9 : ErrorPattern :=
  { name := "JSON_PARSE_ERROR"
  , branches :=
      [ [Atom.lit "JSON.parse"]
      , [Atom.lit "Unexpected token", Atom.gap, Atom.lit "JSON"]
      , [Atom.lit "SyntaxError", Atom.gap, Atom.lit "JSON"] ]
  , template := "The JSON string you\x27re trying to parse is invalid or malformed.\n\nCommon causes:\n- Invalid JSON syntax (trailing commas, missing quotes)\n- Trying to parse non-JSON string\n- Incomplete JSON data\n- Incorrect escaping\n\nSolution:\n1. Validate JSON before parsing: try/catch around JSON.parse()\n2. Check JSON syntax (use jsonlint.com)\n3. Use error handling:\n   try \x7b JSON.parse(str) \x7d catch(e) \x7b console.error(\x27Invalid JSON\x27) \x7d\n4. Ensure complete data is received before parsing" }

-- source match: /Maximum call stack size exceeded|stack overflow|RangeError/i
def pat10 : ErrorPattern :=
  { name := "MAXIMUM_CALL_STACK_EXCEEDED"
  , branches :=
      [ [Atom.lit "Maximum call stack size exceeded"]
      , [Atom.lit "stack overflow"]
      , [Atom.lit "RangeError"] ]
  , template := "Infinite recursion or very deeply nested loops - your function called itself too many times.\n\nCommon causes:\n- Infinite recursion without base case\n- Circular dependencies\n- Deep chains of async operations\n- Event emitter loops\n\nSolution:\n1. Check recursive functions have a base case\n2. Ensure recursion terminates\n3. Use iteration instead of recursion for large datasets\n4. Increase stack size if needed (not recommended): node --stack-size" }

-- source match: /UnhandledPromiseRejectionWarning|unhandledRejection|Promise rejection was not handled/i
def pat11 : ErrorPattern :=
  { name := "UNHANDLED_PROMISE_REJECTION"
  , branches :=
      [ [Atom.lit "UnhandledPromiseRejectionWarning"]
      , [Atom.lit "unhandledRejection"]
      , [Atom.lit "Promise rejection was not handled"] ]
  , template := "A Promise was rejected but there\x27s no .catch() handler to handle the error.\n\nCommon causes:\n- Missing .catch() after .then()\n- Missing await or Promise error handling\n- Async function error not caught\n- Event listener not added\n\nSolution:\n1. Add .catch() to all Promise chains\n2. Use try/catch with async/await:\n   try \x7b await asyncFunction() \x7d catch(e) \x7b \x7d\n3. Add error handler to event emitters\n4. Use process.on(\x27unhandledRejection\x27, handler)" }

-- source match: /Unexpected token|Unexpected identifier|SyntaxError: Unexpected/i
def pat12 : ErrorPattern :=
  { name := "UNEXPECTED_TOKEN"
  , branches :=
      [ [Atom.lit "Unexpected token"]
      , [Atom.lit "Unexpected identifier"]
      , [Atom.lit "SyntaxError: Unexpected"] ]
  , template := "The parser encountered unexpected syntax it didn\x27t expect.\n\nCommon causes:\n- Missing or extra brackets\n- Using reserved keywords incorrectly\n- Mixing import/require syntax\n- HTML/non-JS in JS file\n\nSolution:\n1. Look at the line number in the error\n2. Check for balanced brackets: \x7b\x7d, [], ()\n3. Use consistent import syntax (all import or all require)\n4. Check file encoding and format" }

-- source match: /ECONNRESET|Connection reset|socket hang up/i
def pat13 : ErrorPattern :=
  { name := "ECONNRESET"
  , branches :=
      [ [Atom.lit "ECONNRESET"]
      , [Atom.lit "Connection reset"]
      , [Atom.lit "socket hang up"] ]
  , template := "The connection was reset - the remote server or client closed the connection unexpectedly.\n\nCommon causes:\n- Server crashed or restarted\n- Network connection dropped\n- Timeout - connection idle too long\n- Client forcefully closed connection\n\nSolution:\n1. Add connection error handling:\n   socket.on(\x27error\x27, (err) => console.error(\x27Connection error\x27))\n2. Implement retry logic with exponential backoff\n3. Check for timeouts: socket.setTimeout()\n4. Monitor server logs for crashes" }

-- source match: /MongoNetworkError|MongoDB server selection failed|getaddrinfo.*mongodb/i
def pat14 : ErrorPattern :=
  { name := "MONGO_NETWORK_ERROR"
  , branches :=
      [ [Atom.lit "MongoNetworkError"]
      , [Atom.lit "MongoDB server selection failed"]
      , [Atom.lit "getaddrinfo", Atom.gap, Atom.lit "mongodb"] ]
  , template := "Cannot connect to MongoDB - network or database connection issue.\n\nCommon causes:\n- MongoDB server not running\n- Wrong connection string\n- Database server unreachable\n- Firewall blocking connection\n- Wrong credentials\n\nSolution:\n1. Verify MongoDB is running\n2. Check connection string in .env or config\n3. Ensure IP/hostname is correct and accessible\n4. Add connection retries:\n   useNewUrlParser: true, useUnifiedTopology: true\n5. Check MongoDB cloud Atlas firewall rules if using cloud" }

-- source match: /ValidationError|Mongoose|validation failed|Cast to.*failed/i
def pat15 : ErrorPattern :=
  { name := "MONGOOSE_VALIDATION_ERROR"
  , branches :=
      [ [Atom.lit "ValidationError"]
      , [Atom.lit "Mongoose"]
      , [Atom.lit "validation failed"]
      , [Atom.lit "Cast to", Atom.gap, Atom.lit "failed"] ]
  , template := "MongoDB/Mongoose rejected data because it doesn\x27t match your schema definition.\n\nCommon causes:\n- Required field missing\n- Data type mismatch\n- Custom validator failed\n- Invalid ObjectId\n\nSolution:\n1. Check all required fields are provided\n2. Ensure data types match schema\n3. Validate ObjectIds before querying\n4. Add debug logging to see what field failed\n5. Use schema validation: const schema = new Schema(\x7b ... \x7d)" }

-- source match: /Cannot GET|Cannot POST|Cannot PUT|Cannot DELETE|404.*not found/i
def pat16 : ErrorPattern :=
  { name := "EXPRESS_ROUTE_NOT_FOUND"
  , branches :=
      [ [Atom.lit "Cannot GET"]
      , [Atom.lit "Cannot POST"]
      , [Atom.lit "Cannot PUT"]
      , [Atom.lit "Cannot DELETE"]
      , [Atom.lit "404", Atom.gap, Atom.lit "not found"] ]
  , template := "Express couldn\x27t find a route handler that matches this HTTP request.\n\nCommon causes:\n- Route not defined\n- Wrong HTTP method (GET vs POST)\n- URL path typo\n- Route defined after app.listen()\n- Missing middleware\n\nSolution:\n1. Verify route exists: app.get(\x27/path\x27, ...)\n2. Check HTTP method matches (GET, POST, PUT, DELETE)\n3. Add 404 handler at end: app.use((req, res) => res.status(404))\n4. Use app.all(\x27*\x27) for catch-all\n5. Ensure routes defined before app.listen()" }

-- source match: /CORS|Access-Control-Allow-Origin|Cross-Origin/i
def pat17 : ErrorPattern :=
  { name := "CORS_ERROR"
  , branches :=
      [ [Atom.lit "CORS"]
      , [Atom.lit "Access-Control-Allow-Origin"]
      , [Atom.lit "Cross-Origin"] ]
  , template := "Cross-Origin Resource Sharing (CORS) error - browser blocked request from different domain.\n\nCommon causes:\n- CORS headers not set\n- Frontend and backend on different origins\n- Browser security policy\n- Credentials not allowed\n\nSolution:\n1. Install and use cors: npm install cors\n2. Add to Express: const cors = require(\x27cors\x27); app.use(cors())\n3. Or configure specific origins:\n   app.use(cors(\x7b origin: \x27http://localhost:3000\x27 \x7d))\n4. For credentials: credentials: true" }

-- source match: /rate limit|too many requests|429|throttle/i
def pat18 : ErrorPattern :=
  { name := "RATE_LIMIT_ERROR"
  , branches :=
      [ [Atom.lit "rate limit"]
      , [Atom.lit "too many requests"]
      , [Atom.lit "429"]
      , [Atom.lit "throttle"] ]
  , template := "You\x27ve exceeded the rate limit - too many requests in a short time.\n\nCommon causes:\n- API rate limit exceeded\n- Too many concurrent requests\n- Requesting same endpoint repeatedly\n- No backoff/delay between requests\n\nSolution:\n1. Implement rate limiting: npm install express-rate-limit\n2. Add delay between requests: await new Promise(r => setTimeout(r, 1000))\n3. Use exponential backoff for retries\n4. Check API documentation for limits\n5. Cache responses to reduce requests" }

-- source match: /heap out of memory|JavaScript heap out of memory|FATAL/i
def pat19 : ErrorPattern :=
  { name := "MEMORY_LEAK_ERROR"
  , branches :=
      [ [Atom.lit "heap out of memory"]
      , [Atom.lit "JavaScript heap out of memory"]
      , [Atom.lit "FATAL"] ]
  , template := "Node.js ran out of memory - likely a memory leak or insufficient heap allocation.\n\nCommon causes:\n- Event listeners not cleaned up\n- Circular references\n- Large objects not garbage collected\n- Unbounded cache/arrays\n- Too many connections\n\nSolution:\n1. Check for memory leaks using clinic.js or node inspect\n2. Clean up event listeners: emitter.removeListener()\n3. Limit cache size: implement LRU cache\n4. Close connections properly\n5. Increase heap: node --max-old-space-size=4096 app.js" }

-- source match: /timeout|ETIMEDOUT|timed out|deadline exceeded/i
def pat20 : ErrorPattern :=
  { name := "TIMEOUT_ERROR"
  , branches :=
      [ [Atom.lit "timeout"]
      , [Atom.lit "ETIMEDOUT"]
      , [Atom.lit "timed out"]
      , [Atom.lit "deadline exceeded"] ]
  , template := "Operation took too long and was cancelled - timeout exceeded.\n\nCommon causes:\n- Network request too slow\n- Database query too slow\n- Operation genuinely taking long time\n- Server not responding\n\nSolution:\n1. Increase timeout if needed: setTimeout seems too short\n2. Use Promise.race() with timeout:\n   Promise.race([operation, timeoutPromise])\n3. Optimize slow queries/requests\n4. Add error handling with graceful fallback\n5. Monitor performance with profiling tools" }

-- source match: /EEXIST|File already exists|file exists/i
def pat21 : ErrorPattern :=
  { name := "FILE_ALREADY_EXISTS"
  , branches :=
      [ [Atom.lit "EEXIST"]
      , [Atom.lit "File already exists"]
      , [Atom.lit "file exists"] ]
  , template := "You\x27re trying to create a file that already exists.\n\nCommon causes:\n- Re-running script that creates files\n- Not checking if file exists before creating\n- Race condition with concurrent writes\n\nSolution:\n1. Check if file exists: fs.existsSync(path)\n2. Use flags appropriately: \x27w\x27 (overwrite), \x27wx\x27 (fail if exists)\n3. Handle error gracefully:\n   if (fs.existsSync(file)) \x7b fs.unlinkSync(file) \x7d\n4. Use callback: fs.writeFile(path, data, (err) => \x7b \x7d)" }

-- source match: /ERR_INVALID_ARG_TYPE|ERR_INVALID_ARG|Invalid argument/i
def pat22 : ErrorPattern :=
  { name := "INVALID_ARGUMENT_ERROR"
  , branches :=
      [ [Atom.lit "ERR_INVALID_ARG_TYPE"]
      , [Atom.lit "ERR_INVALID_ARG"]
      , [Atom.lit "Invalid argument"] ]
  , template := "You passed an invalid argument to a function - wrong type or value.\n\nCommon causes:\n- Wrong data type (string instead of number)\n- Null/undefined where object expected\n- Out of range value\n- Invalid option object\n\nSolution:\n1. Check function documentation for expected types\n2. Validate arguments before calling:\n   if (typeof x !== \x27number\x27) throw new Error(\x27Expected number\x27)\n3. Use TypeScript for type safety\n4. Add JSDoc comments to document expected types" }

-- source match: /ENOMEM|Cannot allocate memory|out of memory/i
def pat23 : ErrorPattern :=
  { name := "ENOMEM"
  , branches :=
      [ [Atom.lit "ENOMEM"]
      , [Atom.lit "Cannot allocate memory"]
      , [Atom.lit "out of memory"] ]
  , template := "The system is out of memory - no more memory available.\n\nCommon causes:\n- Memory leak accumulating\n- Process using too much memory\n- System low on overall memory\n- Infinite loops creating data\n\nSolution:\n1. Check memory usage: ps aux (Mac/Linux) or Task Manager (Windows)\n2. Profile memory: node --inspect-brk app.js\n3. Reduce memory usage in application\n4. Implement memory limits or pagination\n5. Check for unbounded data structures" }

-- source match: /port should be >= 0|port is not a number|ERR_SOCKET_BAD_PORT/i
def pat24 : ErrorPattern :=
  { name := "PORT_NOT_NUMERIC"
  , branches :=
      [ [Atom.lit "port should be >= 0"]
      , [Atom.lit "port is not a number"]
      , [Atom.lit "ERR_SOCKET_BAD_PORT"] ]
  , template := "The port number is invalid - must be a number between 0 and 65535.\n\nCommon causes:\n- Port is a string not a number\n- Port less than 0 or greater than 65535\n- Port is NaN or undefined\n\nSolution:\n1. Ensure port is a number: const port = parseInt(process.env.PORT) || 3000\n2. Validate range: if (port < 0 || port > 65535) throw Error\n3. Parse from environment variables correctly\n4. Use defaults: port || 3000" }

-- source match: /ECONNABORTED|Connection aborted|socket destroyed/i
def pat25 : ErrorPattern :=
  { name := "ECONNABORTED"
  , branches :=
      [ [Atom.lit "ECONNABORTED"]
      , [Atom.lit "Connection aborted"]
      , [Atom.lit "socket destroyed"] ]
  , template := "The connection was aborted - closed during communication.\n\nCommon causes:\n- Client closed connection mid-request\n- Server forcefully closed socket\n- Network interruption\n- Timeout during transfer\n\nSolution:\n1. Add error handlers: socket.on(\x27error\x27, handler)\n2. Implement connection pooling\n3. Add retry logic for aborted connections\n4. Use keep-alive: agent: new http.Agent(\x7b keepAlive: true \x7d)" }

-- source match: /write after end|ERR_STREAM_DESTROYED|Destroyed stream/i
def pat26 : ErrorPattern :=
  { name := "EMIT_AFTER_CLOSE"
  , branches :=
      [ [Atom.lit "write after end"]
      , [Atom.lit "ERR_STREAM_DESTROYED"]
      , [Atom.lit "Destroyed stream"] ]
  , template := "You\x27re trying to write to a stream that has already been closed/destroyed.\n\nCommon causes:\n- Writing to closed file/stream\n- Writing after .end() called\n- Double closing\n- Race condition\n\nSolution:\n1. Check stream state before writing\n2. Use .once() or .on() but not after .end()\n3. Call .end() only once:\n   stream.end(() => \x7b \x7d)\n4. Buffer data and write before close" }

-- source match: /circular.*require|require.*cycle|Cannot find module/i
def pat27 : ErrorPattern :=
  { name := "REQUIRE_CYCLE"
  , branches :=
      [ [Atom.lit "circular", Atom.gap, Atom.lit "require"]
      , [Atom.lit "require", Atom.gap, Atom.lit "cycle"]
      , [Atom.lit "Cannot find module"] ]
  , template := "Circular dependency detected - files require each other creating a loop.\n\nCommon causes:\n- File A requires File B, File B requires File A\n- Deep circular dependency chains\n- Shared exports\n\nSolution:\n1. Restructure code to break circle\n2. Use lazy requires: require() inside function, not top-level\n3. Extract shared code to third file\n4. Check import graph: npm install circular-dependency-plugin" }

-- source match: /Unknown encoding|ERR_UNKNOWN_ENCODING|not a valid encoding/i
def pat28 : ErrorPattern :=
  { name := "BUFFER_ENCODING_ERROR"
  , branches :=
      [ [Atom.lit "Unknown encoding"]
      , [Atom.lit "ERR_UNKNOWN_ENCODING"]
      , [Atom.lit "not a valid encoding"] ]
  , template := "Invalid character encoding specified - not a recognized encoding.\n\nCommon causes:\n- Typo in encoding name\n- Unsupported encoding\n- Wrong encoding for data\n\nSolution:\n1. Use valid encodings: utf8, utf16le, ascii, latin1, base64, hex\n2. Common encoding is \x27utf8\x27 (default)\n3. Check documentation for correct encoding name\n4. Convert between encodings if needed: buffer.toString(\x27utf8\x27)" }

-- source match: /Invalid protocol|ERR_INVALID_PROTOCOL|protocol.*invalid/i
def pat29 : ErrorPattern :=
  { name := "INVALID_PROTOCOL"
  , branches :=
      [ [Atom.lit "Invalid protocol"]
      , [Atom.lit "ERR_INVALID_PROTOCOL"]
      , [Atom.lit "protocol", Atom.gap, Atom.lit "invalid"] ]
  , template := "Invalid URL protocol specified - must be http:, https:, ftp:, etc.\n\nCommon causes:\n- URL missing protocol\n- Wrong protocol in URL\n- Spaces or invalid characters\n\nSolution:\n1. Ensure URL includes protocol: \x27https://...\x27 not just \x27...\x27\n2. Use new URL() to parse and validate\n3. Common protocols: http:, https:, ftp:, file:\n4. Check URL format: new URL(\x27https://example.com\x27)" }

-- source match: /ERR_MODULE_NOT_FOUND|Cannot find.*module|ERR_PACKAGE_PATH_NOT_EXPORTED/i
def pat30 : ErrorPattern :=
  { name := "ERR_MODULE_NOT_FOUND"
  , branches :=
      [ [Atom.lit "ERR_MODULE_NOT_FOUND"]
      , [Atom.lit "Cannot find", Atom.gap, Atom.lit "module"]
      , [Atom.lit "ERR_PACKAGE_PATH_NOT_EXPORTED"] ]
  , template := "The module or export you\x27re trying to import doesn\x27t exist.\n\nCommon causes:\n- Package not installed\n- Wrong export name\n- Wrong file path\n- Package incompatible with Node version\n\nSolution:\n1. Install missing package: npm install package-name\n2. Check exact export name: check package.json \"exports\" field\n3. Use correct import syntax\n4. Verify package version supports your Node version" }

-- source match: /ERR_SCRIPT_NOT_FOUND|npm run.*not found|Unknown script/i
def pat31 : ErrorPattern :=
  { name := "ERR_SCRIPT_NOT_FOUND"
  , branches :=
      [ [Atom.lit "ERR_SCRIPT_NOT_FOUND"]
      , [Atom.lit "npm run", Atom.gap, Atom.lit "not found"]
      , [Atom.lit "Unknown script"] ]
  , template := "The npm script you\x27re trying to run doesn\x27t exist in package.json.\n\nCommon causes:\n- Script not defined in package.json\n- Typo in script name\n- Wrong project directory\n\nSolution:\n1. Check package.json scripts section\n2. Add the script: \"start\": \"node app.js\"\n3. Run scripts with: npm run script-name\n4. List available scripts: npm run" }

-- source match: /EPERM|operation not permitted|permission denied/i
def pat32 : ErrorPattern :=
  { name := "EPERM"
  , branches :=
      [ [Atom.lit "EPERM"]
      , [Atom.lit "operation not permitted"]
      , [Atom.lit "permission denied"] ]
  , template := "Operation not permitted - insufficient permissions for this action.\n\nCommon causes:\n- File/directory permissions too restrictive\n- Trying to write to read-only file\n- Trying to delete protected file\n- Running as wrong user\n\nSolution:\n1. Fix permissions: chmod +w filename (Mac/Linux)\n2. Check file owner: ls -l (Mac/Linux)\n3. Run as correct user\n4. Use sudo if necessary (be cautious)" }

-- source match: /EISDIR|Illegal operation on a directory|Is a directory/i
def pat33 : ErrorPattern :=
  { name := "EISDIR"
  , branches :=
      [ [Atom.lit "EISDIR"]
      , [Atom.lit "Illegal operation on a directory"]
      , [Atom.lit "Is a directory"] ]
  , template := "You\x27re trying to use a directory where a file is expected, or vice versa.\n\nCommon causes:\n- Trying to read a directory as file\n- fs.readFile() given directory path\n- Wrong path type\n\nSolution:\n1. Check if path is directory: fs.lstatSync(path).isDirectory()\n2. Use correct fs method: fs.readdir() for directories\n3. Verify path in code matches actual file/directory" }

-- source match: /ENOTDIR|not a directory|ENOTDIR/i
def pat34 : ErrorPattern :=
  { name := "ENOTDIR"
  , branches :=
      [ [Atom.lit "ENOTDIR"]
      , [Atom.lit "not a directory"]
      , [Atom.lit "ENOTDIR"] ]
  , template := "You\x27re trying to use a file where a directory is expected.\n\nCommon causes:\n- Path should point to directory but doesn\x27t\n- File deleted or renamed\n- Wrong path structure\n\nSolution:\n1. Verify directory exists\n2. Create directory if needed: fs.mkdirSync(path, \x7b recursive: true \x7d)\n3. Check full path is correct\n4. Ensure intermediate directories exist" }

-- source match: /\.env.*not found|no such file.*\.env/i
def pat35 : ErrorPattern :=
  { name := "ENVFILE_NOT_FOUND"
  , branches :=
      [ [Atom.lit ".env", Atom.gap, Atom.lit "not found"]
      , [Atom.lit "no such file", Atom.gap, Atom.lit ".env"] ]
  , template := ".env configuration file not found - needed for environment variables.\n\nCommon causes:\n- .env file missing\n- Wrong working directory\n- Gitignored .env not created\n\nSolution:\n1. Create .env file in project root\n2. Use env package: require(\x27dotenv\x27).config()\n3. Copy from .env.example if exists: cp .env.example .env\n4. Add to .gitignore: echo \x27.env\x27 >> .gitignore" }

-- source match: /SSL|certificate|SSL_ERROR|unable to verify|self signed/i
def pat36 : ErrorPattern :=
  { name := "SSL_CERTIFICATE_ERROR"
  , branches :=
      [ [Atom.lit "SSL"]
      , [Atom.lit "certificate"]
      , [Atom.lit "SSL_ERROR"]
      , [Atom.lit "unable to verify"]
      , [Atom.lit "self signed"] ]
  , template := "SSL/TLS certificate error - security certificate issue.\n\nCommon causes:\n- Self-signed certificate\n- Expired certificate\n- Certificate mismatch\n- Wrong hostname\n\nSolution:\n1. For development, disable SSL check (NOT for production):\n   process.env.NODE_TLS_REJECT_UNAUTHORIZED = \x270\x27\n2. Use valid certificate for production\n3. Check certificate expiry\n4. Use LetsEncrypt for free certificates" }

-- source match: /ERR_HTTP_HEADERS_OVERFLOW|Headers overflow|header.*too large/i
def pat37 : ErrorPattern :=
  { name := "HEADER_OVERFLOW"
  , branches :=
      [ [Atom.lit "ERR_HTTP_HEADERS_OVERFLOW"]
      , [Atom.lit "Headers overflow"]
      , [Atom.lit "header", Atom.gap, Atom.lit "too large"] ]
  , template := "HTTP headers exceeded size limit - too much header data.\n\nCommon causes:\n- Too many cookies\n- Large headers in request\n- Headers not cleaned up\n\nSolution:\n1. Reduce number/size of cookies\n2. Compress headers\n3. Use configure max header size:\n   --max-http-header-size=16384" }

-- source match: /stream destroyed|Writable stream error|destroyed stream/i
def pat38 : ErrorPattern :=
  { name := "STREAM_DESTROYED"
  , branches :=
      [ [Atom.lit "stream destroyed"]
      , [Atom.lit "Writable stream error"]
      , [Atom.lit "destroyed stream"] ]
  , template := "Attempting to use a stream that has been destroyed/closed.\n\nCommon causes:\n- Writing to closed stream\n- Stream destroyed before operation\n- Pipe to destroyed stream\n\nSolution:\n1. Check stream state: if (!stream.destroyed)\n2. Add error handlers: stream.on(\x27error\x27, handler)\n3. Don\x27t reuse destroyed streams\n4. Clean up properly: stream.destroy()" }

-- source match: /Invalid URL|ERR_INVALID_URL|URL.*invalid/i
def pat39 : ErrorPattern :=
  { name := "INVALID_URL"
  , branches :=
      [ [Atom.lit "Invalid URL"]
      , [Atom.lit "ERR_INVALID_URL"]
      , [Atom.lit "URL", Atom.gap, Atom.lit "invalid"] ]
  , template := "The URL format is invalid or malformed.\n\nCommon causes:\n- Missing protocol (http://, https://)\n- Invalid characters in URL\n- Space or special character not encoded\n- Malformed query string\n\nSolution:\n1. Use new URL() to validate: new URL(\x27https://example.com\x27)\n2. Encode special characters: encodeURIComponent()\n3. Include protocol: https://example.com\n4. Use try/catch for URL validation" }

-- source match: /AbortError|abort.*signal|signal.*aborted/i
def pat40 : ErrorPattern :=
  { name := "ABORT_CONTROLLER_ERROR"
  , branches :=
      [ [Atom.lit "AbortError"]
      , [Atom.lit "abort", Atom.gap, Atom.lit "signal"]
      , [Atom.lit "signal", Atom.gap, Atom.lit "aborted"] ]
  , template := "Operation was aborted using AbortController signal.\n\nCommon causes:\n- User cancelled operation\n- Timeout triggered abort\n- Request cancelled before completion\n\nSolution:\n1. Handle AbortError properly:\n   if (error.name === \x27AbortError\x27) \x7b \x7d\n2. Use AbortController for cancellation:\n   const controller = new AbortController()\n3. Add timeouts: AbortSignal.timeout(5000)" }

-- source match: /child process|spawn|fork.*error|ERR_CHILD_PROCESS/i
def pat41 : ErrorPattern :=
  { name := "PROCESS_ERROR"
  , branches :=
      [ [Atom.lit "child process"]
      , [Atom.lit "spawn"]
      , [Atom.lit "fork", Atom.gap, Atom.lit "error"]
      , [Atom.lit "ERR_CHILD_PROCESS"] ]
  , template := "Error spawning or managing a child process.\n\nCommon causes:\n- Command not found\n- Permission denied to execute\n- Invalid arguments\n\nSolution:\n1. Check command exists and is executable\n2. Use full path: \x27/usr/bin/node\x27 not just \x27node\x27\n3. Handle child process errors:\n   child.on(\x27error\x27, (err) => \x7b \x7d)\n4. Check exit code: process.exitCode" }

-- source match: /AssertionError|Assert.*failed|assertion.*false/i
def pat42 : ErrorPattern :=
  { name := "ASSERTION_ERROR"
  , branches :=
      [ [Atom.lit "AssertionError"]
      , [Atom.lit "Assert", Atom.gap, Atom.lit "failed"]
      , [Atom.lit "assertion", Atom.gap, Atom.lit "false"] ]
  , template := "An assertion failed - a condition you asserted was false when it should be true.\n\nCommon causes:\n- Unit test failed\n- Debug assertion triggered\n- Unexpected state\n\nSolution:\n1. Check the assertion message for details\n2. Fix the code or test\n3. Use assertions for debugging: assert(condition, \x27message\x27)\n4. Better: console.assert(condition, \x27message\x27)" }

-- source match: /DeprecationWarning|deprecated|Deprecation/i
def pat43 : ErrorPattern :=
  { name := "DEPRECATED_API"
  , branches :=
      [ [Atom.lit "DeprecationWarning"]
      , [Atom.lit "deprecated"]
      , [Atom.lit "Deprecation"] ]
  , template := "You\x27re using an API or feature that\x27s deprecated and will be removed.\n\nCommon causes:\n- Using old Node.js API\n- Old library version\n- Feature marked for removal\n\nSolution:\n1. Check deprecation message for replacement\n2. Update to newer API\n3. Suppress warning if necessary (not recommended):\n   --no-deprecation flag\n4. Keep code updated with Node.js releases" }

-- source match: /unsafe integer|MAX_SAFE_INTEGER|Not a safe integer/i
def pat44 : ErrorPattern :=
  { name := "UNSAFE_INTEGER"
  , branches :=
      [ [Atom.lit "unsafe integer"]
      , [Atom.lit "MAX_SAFE_INTEGER"]
      , [Atom.lit "Not a safe integer"] ]
  , template := "Number exceeds JavaScript\x27s safe integer range (\u00b12^53).\n\nCommon causes:\n- Very large numbers (BigInt needed)\n- Calculations overflow\n- Precision loss\n\nSolution:\n1. Use BigInt for large numbers: 123n\n2. Use BigInt operations: 1n + 1n\n3. Convert carefully: BigInt(number)\n4. Handle in calculations: Math.floor() before using" }

-- source match: /template|string.*template|backtick/i
def pat45 : ErrorPattern :=
  { name := "TEMPLATE_LITERAL_ERROR"
  , branches :=
      [ [Atom.lit "template"]
      , [Atom.lit "string", Atom.gap, Atom.lit "template"]
      , [Atom.lit "backtick"] ]
  , template := "Error with template literals or string formatting.\n\nCommon causes:\n- Missing backticks: \x60 instead of \x27\n- Unescaped \x24 in template\n- Invalid expression in \x24\x7b\x7d\n\nSolution:\n1. Use backticks for template literals: \x60text \x24\x7bvar\x7d\x60\n2. Escape literal \x24: \\\x24 if needed\n3. Use valid expressions in \x24\x7b\x7d: \x24\x7bvariable\x7d, \x24\x7b1 + 1\x7d" }

-- source match: /out of range|index out of bounds|RangeError|length/i
def pat46 : ErrorPattern :=
  { name := "ARRAY_OUT_OF_BOUNDS"
  , branches :=
      [ [Atom.lit "out of range"]
      , [Atom.lit "index out of bounds"]
      , [Atom.lit "RangeError"]
      , [Atom.lit "length"] ]
  , template := "Array index is out of valid range or operation exceeds array bounds.\n\nCommon causes:\n- Negative index without check\n- Index equals or exceeds length\n- Wrong loop condition\n\nSolution:\n1. Check array length: if (index < arr.length)\n2. Use proper loop: for (let i = 0; i < arr.length; i++)\n3. Use array methods: arr.forEach(), map(), filter()\n4. Handle edge cases" }

-- source match: /division.*zero|divide.*zero|Infinity|toDo by zero/i
def pat47 : ErrorPattern :=
  { name := "DIVISION_BY_ZERO"
  , branches :=
      [ [Atom.lit "division", Atom.gap, Atom.lit "zero"]
      , [Atom.lit "divide", Atom.gap, Atom.lit "zero"]
      , [Atom.lit "Infinity"]
      , [Atom.lit "toDo by zero"] ]
  , template := "Division by zero encountered - mathematically undefined.\n\nCommon causes:\n- Denominator is 0 or evaluates to 0\n- Missing validation\n\nSolution:\n1. Check denominator isn\x27t zero: if (divisor !== 0)\n2. Provide fallback value: divisor || 1\n3. Handle Infinity gracefully: if (!isFinite(result))\n4. Validate inputs before operations" }

-- source match: /mixed content|https.*http|insecure content/i
def pat48 : ErrorPattern :=
  { name := "MIXED_CONTENT"
  , branches :=
      [ [Atom.lit "mixed content"]
      , [Atom.lit "https", Atom.gap, Atom.lit "http"]
      , [Atom.lit "insecure content"] ]
  , template := "HTTPS page is trying to load HTTP content - browser blocks this for security.\n\nCommon causes:\n- HTTPS page loading HTTP resource\n- Image, script, or API from HTTP\n\nSolution:\n1. Use HTTPS for all resources\n2. Update all URLs to https://\n3. Use protocol-relative URLs: //example.com/image.jpg\n4. Update API endpoints to use HTTPS" }

-- source match: /encoding|charset|UTF-8|BOM|byte order/i
def pat49 : ErrorPattern :=
  { name := "ENCODING_MISMATCH"
  , branches :=
      [ [Atom.lit "encoding"]
      , [Atom.lit "charset"]
      , [Atom.lit "UTF-8"]
      , [Atom.lit "BOM"]
      , [Atom.lit "byte order"] ]
  , template := "Character encoding mismatch - data in one encoding, expected another.\n\nCommon causes:\n- File saved in different encoding than expected\n- BOM (Byte Order Mark) interference\n- Locale encoding mismatch\n\nSolution:\n1. Save files as UTF-8 consistently\n2. Specify encoding: fs.readFileSync(path, \x27utf8\x27)\n3. Check for BOM: if (content.charCodeAt(0) === 0xFEFF)\n4. Use consistent encoding across project" }

-- source match: /lock|ELOCKED|in use by another|lockfile/i
def pat50 : ErrorPattern :=
  { name := "LOCK_FILE_ERROR"
  , branches :=
      [ [Atom.lit "lock"]
      , [Atom.lit "ELOCKED"]
      , [Atom.lit "in use by another"]
      , [Atom.lit "lockfile"] ]
  , template := "Resource is locked - being used by another process.\n\nCommon causes:\n- File/database in use\n- Another npm install running\n- Process hasn\x27t closed properly\n\nSolution:\n1. Close other processes using resource\n2. Delete lock files: rm -f package-lock.json\n3. Wait for process to release lock\n4. Use proper locking: npm-lock package" }

-- source match: /peer dep.*missing|unmet peer|WARN compat.*peer/i
def pat51 : ErrorPattern :=
  { name := "NPM_ERR_PEER_DEP_MISSING"
  , branches :=
      [ [Atom.lit "peer dep", Atom.gap, Atom.lit "missing"]
      , [Atom.lit "unmet peer"]
      , [Atom.lit "WARN compat", Atom.gap, Atom.lit "peer"] ]
  , template := "A peer dependency is missing but required by a package.\n\nCommon causes:\n- Package version mismatch\n- Peer dependency not installed\n- Version incompatibility\n\nSolution:\n1. Install missing peer dependency: npm install <package>\n2. Check package.json for correct versions\n3. Use npm ls to see dependency tree\n4. Update packages: npm update" }

-- source match: /npm audit|vulnerability|security|high severity|critical/i
def pat52 : ErrorPattern :=
  { name := "NPM_AUDIT_VULNERABILITY"
  , branches :=
      [ [Atom.lit "npm audit"]
      , [Atom.lit "vulnerability"]
      , [Atom.lit "security"]
      , [Atom.lit "high severity"]
      , [Atom.lit "critical"] ]
  , template := "Security vulnerability found in dependencies.\n\nCommon causes:\n- Outdated package with known vulnerability\n- Transitive dependency has security issue\n- Using unpatched version\n\nSolution:\n1. Run: npm audit to see details\n2. Update packages: npm audit fix\n3. Check advisory details online\n4. Pin safe versions in package.json\n5. Keep dependencies up to date" }

-- source match: /npm ERR|install failed|cannot compile|build failed/i
def pat53 : ErrorPattern :=
  { name := "NPM_INSTALL_FAILED"
  , branches :=
      [ [Atom.lit "npm ERR"]
      , [Atom.lit "install failed"]
      , [Atom.lit "cannot compile"]
      , [Atom.lit "build failed"] ]
  , template := "Package installation failed - typically due to native dependency or build.\n\nCommon causes:\n- C++ compiler not available\n- Python not installed\n- Missing build tools\n- Node version mismatch\n\nSolution:\n1. On Mac: xcode-select --install\n2. On Windows: npm install --global windows-build-tools\n3. On Linux: sudo apt-get install build-essential\n4. Check Node version: node --version\n5. Try: npm install --ignore-scripts" }

-- source match: /shrinkwrap|npm-shrinkwrap|package-lock.*conflict/i
def pat54 : ErrorPattern :=
  { name := "NPM_SHRINKWRAP_CONFLICT"
  , branches :=
      [ [Atom.lit "shrinkwrap"]
      , [Atom.lit "npm-shrinkwrap"]
      , [Atom.lit "package-lock", Atom.gap, Atom.lit "conflict"] ]
  , template := "Conflict between npm-shrinkwrap.json and package-lock.json.\n\nCommon causes:\n- Both lockfiles present\n- Lockfile corruption\n- Git merge conflict\n\nSolution:\n1. Delete one: rm package-lock.json (if npm-shrinkwrap exists)\n2. Reinstall: npm install\n3. Use consistent lockfile strategy\n4. Don\x27t commit both lockfiles" }

-- source match: /Invalid package name|package name.*invalid|ERR.*name/i
def pat55 : ErrorPattern :=
  { name := "INVALID_PACKAGE_NAME"
  , branches :=
      [ [Atom.lit "Invalid package name"]
      , [Atom.lit "package name", Atom.gap, Atom.lit "invalid"]
      , [Atom.lit "ERR", Atom.gap, Atom.lit "name"] ]
  , template := "Package name doesn\x27t meet npm naming requirements.\n\nCommon causes:\n- Name contains uppercase letters\n- Name starts with dot or underscore\n- Name has special characters\n- Name too long\n\nSolution:\n1. Use lowercase: name must be lowercase\n2. No dots or underscores at start\n3. Only alphanumeric, hyphens allowed\n4. Keep under 214 characters\n5. Check npm package naming rules" }

-- source match: /TypeScript|\.ts.*error|TS\d+|tsc/i
def pat56 : ErrorPattern :=
  { name := "TS_COMPILATION_ERROR"
  , branches :=
      [ [Atom.lit "TypeScript"]
      , [Atom.lit ".ts", Atom.gap, Atom.lit "error"]
      , [Atom.lit "TS", Atom.digitPlus]
      , [Atom.lit "tsc"] ]
  , template := "TypeScript compilation error - type checking failed.\n\nCommon causes:\n- Type mismatch\n- Missing type definitions\n- Incompatible types\n- Type inference failed\n\nSolution:\n1. Check error code: TS2345, TS2304, etc.\n2. Install type definitions: npm install --save-dev @types/package\n3. Use type annotations correctly\n4. Check tsconfig.json settings\n5. Use \x27any\x27 type as temporary fix (not recommended)" }

-- source match: /Cannot find name|TS2304|not defined/i
def pat57 : ErrorPattern :=
  { name := "TS_CANNOT_FIND_NAME"
  , branches :=
      [ [Atom.lit "Cannot find name"]
      , [Atom.lit "TS2304"]
      , [Atom.lit "not defined"] ]
  , template := "TypeScript can\x27t find a variable, function, or type name.\n\nCommon causes:\n- Type definitions not installed\n- Variable not imported\n- Typo in name\n- Wrong scope\n\nSolution:\n1. Install types: npm install --save-dev @types/package-name\n2. Import the variable/function\n3. Check spelling\n4. Verify variable is in scope\n5. Use: declare let variable: any (as workaround)" }

-- source match: /has no property|TS2339|Property.*does not exist/i
def pat58 : ErrorPattern :=
  { name := "TS_PROPERTY_DOES_NOT_EXIST"
  , branches :=
      [ [Atom.lit "has no property"]
      , [Atom.lit "TS2339"]
      , [Atom.lit "Property", Atom.gap, Atom.lit "does not exist"] ]
  , template := "Trying to access property that doesn\x27t exist in type.\n\nCommon causes:\n- Property name typo\n- Property not in type definition\n- Using wrong object\n- Version mismatch of types\n\nSolution:\n1. Check property spelling\n2. Verify type definition includes property\n3. Use type assertion: (obj as any).property\n4. Update type definitions\n5. Check documentation for correct property name" }

-- source match: /Argument of type|TS2345|not assignable/i
def pat59 : ErrorPattern :=
  { name := "TS_ARGUMENT_MISMATCH"
  , branches :=
      [ [Atom.lit "Argument of type"]
      , [Atom.lit "TS2345"]
      , [Atom.lit "not assignable"] ]
  , template := "Function argument type doesn\x27t match expected type.\n\nCommon causes:\n- Wrong type passed\n- Incompatible types\n- Missing optional property\n- Extra properties not allowed\n\nSolution:\n1. Check expected type in function signature\n2. Cast to correct type: myFunc(x as ExpectedType)\n3. Convert type: String(value) or parseInt()\n4. Use type assertion in function call\n5. Check library documentation for correct types" }

-- source match: /async iterator|for await|Symbol\.asyncIterator/i
def pat60 : ErrorPattern :=
  { name := "ASYNC_ITERATOR_ERROR"
  , branches :=
      [ [Atom.lit "async iterator"]
      , [Atom.lit "for await"]
      , [Atom.lit "Symbol.asyncIterator"] ]
  , template := "Error with async iterators or for-await loops.\n\nCommon causes:\n- Object doesn\x27t implement async iterator\n- Using for-await on non-async iterable\n- Invalid async generator\n\nSolution:\n1. Implement Symbol.asyncIterator\n2. Use proper async generator: async function*\n3. Use for-await only with async iterables\n4. Convert to Promise if needed" }

-- source match: /Promise executor|executor threw/i
def pat61 : ErrorPattern :=
  { name := "PROMISE_CONSTRUCTOR_EXECUTOR_ERROR"
  , branches := [[Atom.lit "Promise executor"], [Atom.lit "executor threw"]]
  , template := "Error thrown in Promise constructor executor function.\n\nCommon causes:\n- Synchronous error in executor\n- resolve/reject called twice\n- Executor throws exception\n\nSolution:\n1. Wrap executor in try/catch\n2. Call resolve/reject only once\n3. Ensure executor returns sync operation\n4. Use: new Promise((resolve, reject) => \x7b \x7d)" }

-- source match: /await.*outside|not in async|TS1308|Unexpected.*await/i
def pat62 : ErrorPattern :=
  { name := "CANNOT_USE_AWAIT_OUTSIDE_ASYNC"
  , branches :=
      [ [Atom.lit "await", Atom.gap, Atom.lit "outside"]
      , [Atom.lit "not in async"]
      , [Atom.lit "TS1308"]
      , [Atom.lit "Unexpected", Atom.gap, Atom.lit "await"] ]
  , template := "Using await outside async function context.\n\nCommon causes:\n- await in non-async function\n- Top-level await without module type\n- Missing async keyword\n\nSolution:\n1. Add async: async function myFunc() \x7b await ... \x7d\n2. For top-level await, set in tsconfig or package.json\n3. Use .then() instead of await if can\x27t use async\n4. Wrap in async IIFE: (async () => \x7b await ... \x7d)()" }

-- source match: /postgres|postgresql|ECONNREFUSED.*5432|pg error/i
def pat63 : ErrorPattern :=
  { name := "POSTGRES_CONNECTION_ERROR"
  , branches :=
      [ [Atom.lit "postgres"]
      , [Atom.lit "postgresql"]
      , [Atom.lit "ECONNREFUSED", Atom.gap, Atom.lit "5432"]
      , [Atom.lit "pg error"] ]
  , template := "Cannot connect to PostgreSQL database.\n\nCommon causes:\n- PostgreSQL server not running\n- Wrong host/port/credentials\n- Firewall blocking connection\n- Connection pool exhausted\n\nSolution:\n1. Verify PostgreSQL running: brew services list\n2. Check connection string in env\n3. Default port is 5432\n4. Verify user/password correct\n5. Check firewall rules if remote" }

-- source match: /redis|ECONNREFUSED.*6379|redis error|ERR unknown command/i
def pat64 : ErrorPattern :=
  { name := "REDIS_CONNECTION_ERROR"
  , branches :=
      [ [Atom.lit "redis"]
      , [Atom.lit "ECONNREFUSED", Atom.gap, Atom.lit "6379"]
      , [Atom.lit "redis error"]
      , [Atom.lit "ERR unknown command"] ]
  , template := "Cannot connect to or communicate with Redis.\n\nCommon causes:\n- Redis server not running\n- Wrong host/port\n- Redis command syntax error\n- Version incompatibility\n\nSolution:\n1. Start Redis: redis-server\n2. Check port 6379 is listening\n3. Verify Redis CLI works: redis-cli\n4. Check command syntax in docs\n5. Clear cache if corrupted: FLUSHALL" }

-- source match: /mysql|PROTOCOL_CONNECTION_LOST|PROTOCOL_ENQUEUE_AFTER_FATAL_ERROR/i
def pat65 : ErrorPattern :=
  { name := "MYSQL_CONNECTION_ERROR"
  , branches :=
      [ [Atom.lit "mysql"]
      , [Atom.lit "PROTOCOL_CONNECTION_LOST"]
      , [Atom.lit "PROTOCOL_ENQUEUE_AFTER_FATAL_ERROR"] ]
  , template := "MySQL connection failed or lost.\n\nCommon causes:\n- MySQL server not running\n- Wrong host/port/user/password\n- Connection timeout\n- Too many connections\n\nSolution:\n1. Start MySQL: brew services start mysql\n2. Check user/password in config\n3. Use connection pool: maxConnections: 10\n4. Add timeout: connectionTimeoutMillis: 5000\n5. Check MySQL is accessible" }

-- source match: /DynamoDB|ResourceNotFoundException|ValidationException|AWS|dynamodb/i
def pat66 : ErrorPattern :=
  { name := "DYNAMODB_ERROR"
  , branches :=
      [ [Atom.lit "DynamoDB"]
      , [Atom.lit "ResourceNotFoundException"]
      , [Atom.lit "ValidationException"]
      , [Atom.lit "AWS"]
      , [Atom.lit "dynamodb"] ]
  , template := "AWS DynamoDB operation failed.\n\nCommon causes:\n- Table doesn\x27t exist\n- Invalid key/attribute\n- Wrong AWS credentials\n- Rate limiting\n\nSolution:\n1. Verify table exists\n2. Check primary key format\n3. Verify AWS credentials configured\n4. Check IAM permissions\n5. Add exponential backoff for throttling" }

-- source match: /Invalid regular expression|regex.*error|regex.*invalid|unterminated/i
def pat67 : ErrorPattern :=
  { name := "REGEX_SYNTAX_ERROR"
  , branches :=
      [ [Atom.lit "Invalid regular expression"]
      , [Atom.lit "regex", Atom.gap, Atom.lit "error"]
      , [Atom.lit "regex", Atom.gap, Atom.lit "invalid"]
      , [Atom.lit "unterminated"] ]
  , template := "Invalid regular expression pattern.\n\nCommon causes:\n- Unescaped special characters\n- Unclosed bracket or group\n- Invalid range in character class\n- Backslash not escaped\n\nSolution:\n1. Escape special chars: \\(, \\), \\[, \\], \\.\n2. Check all brackets balanced\n3. Use regex validator: regexr.com\n4. Escape backslashes: \\\\ in string literals\n5. Test regex before use" }

-- source match: /backtrack|catastrophic|hangs|freezes|regex.*slow/i
def pat68 : ErrorPattern :=
  { name := "REGEX_CATASTROPHIC_BACKTRACKING"
  , branches :=
      [ [Atom.lit "backtrack"]
      , [Atom.lit "catastrophic"]
      , [Atom.lit "hangs"]
      , [Atom.lit "freezes"]
      , [Atom.lit "regex", Atom.gap, Atom.lit "slow"] ]
  , template := "Regex pattern causes catastrophic backtracking - very slow.\n\nCommon causes:\n- Overlapping quantifiers: (a+)+\n- Complex nested quantifiers\n- Alternation with overlap: a|ab\n\nSolution:\n1. Simplify regex pattern\n2. Avoid nested quantifiers\n3. Use atomic grouping: (?>...)\n4. Be specific with character classes\n5. Test performance: test on large strings" }

-- source match: /SQL injection|sql.*dangerous|unsafe sql|concatenat.*query/i
def pat69 : ErrorPattern :=
  { name := "SQL_INJECTION_WARNING"
  , branches :=
      [ [Atom.lit "SQL injection"]
      , [Atom.lit "sql", Atom.gap, Atom.lit "dangerous"]
      , [Atom.lit "unsafe sql"]
      , [Atom.lit "concatenat", Atom.gap, Atom.lit "query"] ]
  , template := "SQL injection vulnerability detected - using unsanitized user input in SQL.\n\nCommon causes:\n- Concatenating user input into SQL\n- Not using parameterized queries\n- Trusting user input\n\nSolution:\n1. Use parameterized queries: db.query(\x27SELECT * FROM users WHERE id = ?\x27, [id])\n2. Use ORM: Sequelize, Knex, TypeORM\n3. Validate and sanitize input\n4. Use prepared statements\n5. Never concatenate user input" }

-- source match: /XSS|cross.?site.*scripting|innerHTML|dangerouslySetInnerHTML/i
def pat70 : ErrorPattern :=
  { name := "XSS_VULNERABILITY"
  , branches :=
      [ [Atom.lit "XSS"]
      , [Atom.lit "cross", Atom.anyOpt, Atom.lit "site", Atom.gap, Atom.lit "scripting"]
      , [Atom.lit "innerHTML"]
      , [Atom.lit "dangerouslySetInnerHTML"] ]
  , template := "Cross-site scripting (XSS) vulnerability - unsanitized HTML injection risk.\n\nCommon causes:\n- Setting innerHTML with user input\n- Not escaping user data\n- Using dangerouslySetInnerHTML\n- Reflected XSS in URL\n\nSolution:\n1. Use textContent instead of innerHTML\n2. Escape HTML: use DOMPurify or similar\n3. Use templating safely\n4. Content Security Policy headers\n5. Validate and sanitize all inputs" }

-- source match: /password|api.?key|secret|token.*log|hardcoded|credentials/i
def pat71 : ErrorPattern :=
  { name := "SENSITIVE_DATA_EXPOSURE"
  , branches :=
      [ [Atom.lit "password"]
      , [Atom.lit "api", Atom.anyOpt, Atom.lit "key"]
      , [Atom.lit "secret"]
      , [Atom.lit "token", Atom.gap, Atom.lit "log"]
      , [Atom.lit "hardcoded"]
      , [Atom.lit "credentials"] ]
  , template := "Sensitive data exposed in logs or code.\n\nCommon causes:\n- Passwords/keys in source code\n- Logging sensitive data\n- Committing .env files\n- Hardcoded credentials\n\nSolution:\n1. Use environment variables\n2. Add .env to .gitignore\n3. Use dotenv package\n4. Don\x27t log passwords/tokens\n5. Use secrets management (AWS Secrets, Vault)" }

-- source match: /middleware|app\.use|Express.*middleware|next.*not.*called/i
def pat72 : ErrorPattern :=
  { name := "EXPRESS_MIDDLEWARE_ERROR"
  , branches :=
      [ [Atom.lit "middleware"]
      , [Atom.lit "app.use"]
      , [Atom.lit "Express", Atom.gap, Atom.lit "middleware"]
      , [Atom.lit "next", Atom.gap, Atom.lit "not", Atom.gap, Atom.lit "called"] ]
  , template := "Express middleware error - typically not calling next().\n\nCommon causes:\n- Forgot to call next() in middleware\n- next() called multiple times\n- Error in middleware execution\n- Middleware not registered\n\nSolution:\n1. Call next() to continue chain: next()\n2. Or send response: res.send()\n3. Add error handling: (err, req, res, next) => \x7b\x7d\n4. Register middleware early: app.use(middleware)\n5. Order matters - put error handlers last" }

-- source match: /hydration|hydratation.*mismatch|useEffect|window.*undefined/i
def pat73 : ErrorPattern :=
  { name := "NEXT_JS_HYDRATION_ERROR"
  , branches :=
      [ [Atom.lit "hydration"]
      , [Atom.lit "hydratation", Atom.gap, Atom.lit "mismatch"]
      , [Atom.lit "useEffect"]
      , [Atom.lit "window", Atom.gap, Atom.lit "undefined"] ]
  , template := "Next.js hydration mismatch - server and client render different HTML.\n\nCommon causes:\n- Using window object in render (no SSR)\n- Date/random values differ between renders\n- Conditional rendering based on client state\n- CSS-in-JS not applied on server\n\nSolution:\n1. Move window access to useEffect\n2. Use dynamic imports: dynamic(() => import(...), \x7b ssr: false \x7d)\n3. Generate same value on server and client\n4. Use Date/Math.random consistently\n5. Ensure CSS is applied on both server and client" }

-- source match: /NestJS|Cannot resolve dependency|Nest.*error|@Injectable/i
def pat74 : ErrorPattern :=
  { name := "NEST_JS_DEPENDENCY_ERROR"
  , branches :=
      [ [Atom.lit "NestJS"]
      , [Atom.lit "Cannot resolve dependency"]
      , [Atom.lit "Nest", Atom.gap, Atom.lit "error"]
      , [Atom.lit "@Injectable"] ]
  , template := "NestJS dependency injection failed - can\x27t resolve a dependency.\n\nCommon causes:\n- Service not provided\n- Circular dependency\n- Service not decorated with @Injectable()\n- Wrong module import\n\nSolution:\n1. Add @Injectable() decorator to service\n2. Provide in module: providers: [MyService]\n3. Import module in imports: []\n4. Check for circular dependencies\n5. Use forwardRef() if circular: forwardRef(() => MyService)" }

-- source match: /iconv|encoding.*fail|decode.*error|encode.*error/i
def pat75 : ErrorPattern :=
  { name := "ICONV_ENCODING_ERROR"
  , branches :=
      [ [Atom.lit "iconv"]
      , [Atom.lit "encoding", Atom.gap, Atom.lit "fail"]
      , [Atom.lit "decode", Atom.gap, Atom.lit "error"]
      , [Atom.lit "encode", Atom.gap, Atom.lit "error"] ]
  , template := "Character encoding conversion failed.\n\nCommon causes:\n- Unsupported encoding\n- Corrupted encoded data\n- Encoding mismatch\n\nSolution:\n1. Use correct encoding name\n2. Validate encoding before conversion\n3. Use try/catch for encoding operations\n4. Use Buffer for binary data\n5. Check data integrity" }

-- source match: /surrogate|UTF-16.*surrogate|encoded.*invalid/i
def pat76 : ErrorPattern :=
  { name := "UTF8_SURROGATE_ERROR"
  , branches :=
      [ [Atom.lit "surrogate"]
      , [Atom.lit "UTF-16", Atom.gap, Atom.lit "surrogate"]
      , [Atom.lit "encoded", Atom.gap, Atom.lit "invalid"] ]
  , template := "Invalid UTF-8 surrogate pair in text encoding.\n\nCommon causes:\n- Mixing UTF-8 and UTF-16\n- Invalid surrogate handling\n- Corrupt file encoding\n\nSolution:\n1. Validate UTF-8 data\n2. Use Buffer.toString(\x27utf8\x27)\n3. Check file encoding in editor\n4. Convert consistently: iconv-lite\n5. Handle invalid sequences: replace with replacement char" }

-- source match: /memory usage|heap|garbage collection|V8|memory pressure/i
def pat77 : ErrorPattern :=
  { name := "PERFORMANCE_MEMORY_WARNING"
  , branches :=
      [ [Atom.lit "memory usage"]
      , [Atom.lit "heap"]
      , [Atom.lit "garbage collection"]
      , [Atom.lit "V8"]
      , [Atom.lit "memory pressure"] ]
  , template := "Memory usage warning - application using too much heap.\n\nCommon causes:\n- Memory leak accumulating\n- Large objects not released\n- Too many event listeners\n- Cache growing unbounded\n\nSolution:\n1. Profile memory: node --inspect app.js\n2. Check for event listener leaks\n3. Implement cache size limits\n4. Use WeakMap/WeakSet for object references\n5. Monitor with process.memoryUsage()" }

-- source match: /slow query|query.*slow|milliseconds.*exceeded|threshold/i
def pat78 : ErrorPattern :=
  { name := "SLOW_QUERY_WARNING"
  , branches :=
      [ [Atom.lit "slow query"]
      , [Atom.lit "query", Atom.gap, Atom.lit "slow"]
      , [Atom.lit "milliseconds", Atom.gap, Atom.lit "exceeded"]
      , [Atom.lit "threshold"] ]
  , template := "Database query is slow and exceeds threshold.\n\nCommon causes:\n- Missing database index\n- Full table scan\n- Complex JOIN\n- Large result set\n\nSolution:\n1. Add database index on queried columns\n2. Use EXPLAIN to analyze query\n3. Limit result set: LIMIT, OFFSET\n4. Use better queries, avoid N+1\n5. Consider caching frequently accessed data" }

-- source match: /EventEmitter|memory leak|listener.*leak|removeListener|maxListeners/i
def pat79 : ErrorPattern :=
  { name := "EVENT_EMITTER_MEMORY_LEAK"
  , branches :=
      [ [Atom.lit "EventEmitter"]
      , [Atom.lit "memory leak"]
      , [Atom.lit "listener", Atom.gap, Atom.lit "leak"]
      , [Atom.lit "removeListener"]
      , [Atom.lit "maxListeners"] ]
  , template := "Event emitter accumulating listeners causing memory leak.\n\nCommon causes:\n- Not removing event listeners\n- Listeners added repeatedly\n- Circular references in listeners\n\nSolution:\n1. Remove listeners: emitter.removeListener(\x27event\x27, handler)\n2. Use once instead of on: emitter.once(\x27event\x27, handler)\n3. Increase if needed: emitter.setMaxListeners(100)\n4. Check for circular references\n5. Use .removeAllListeners() carefully" }

-- source match: /stream.*backpressure|pipe.*drain|writable.*end|high water mark/i
def pat80 : ErrorPattern :=
  { name := "STREAM_BACKPRESSURE_ERROR"
  , branches :=
      [ [Atom.lit "stream", Atom.gap, Atom.lit "backpressure"]
      , [Atom.lit "pipe", Atom.gap, Atom.lit "drain"]
      , [Atom.lit "writable", Atom.gap, Atom.lit "end"]
      , [Atom.lit "high water mark"] ]
  , template := "Stream backpressure not handled - writing faster than reading.\n\nCommon causes:\n- Not checking write return value\n- Not listening to drain event\n- Writing to slow stream too fast\n\nSolution:\n1. Check write() return value\n2. Listen to drain event: stream.on(\x27drain\x27, ...)\n3. Pause reading: readable.pause()\n4. Use pipe(): readStream.pipe(writeStream)\n5. Respect high water mark" }

-- source match: /stream.*encoding|setEncoding|encoding.*stream/i
def pat81 : ErrorPattern :=
  { name := "STREAM_ENCODING_ERROR"
  , branches :=
      [ [Atom.lit "stream", Atom.gap, Atom.lit "encoding"]
      , [Atom.lit "setEncoding"]
      , [Atom.lit "encoding", Atom.gap, Atom.lit "stream"] ]
  , template := "Stream encoding configuration error.\n\nCommon causes:\n- Invalid encoding name\n- setEncoding called after data event\n- Encoding mismatch\n\nSolution:\n1. Call setEncoding before reading: stream.setEncoding(\x27utf8\x27)\n2. Use valid encoding names\n3. Avoid setEncoding with binary data\n4. Handle encoding consistently" }

-- source match: /ESRCH|no such process|process.*not.*found/i
def pat82 : ErrorPattern :=
  { name := "ESRCH_PROCESS_NOT_FOUND"
  , branches :=
      [ [Atom.lit "ESRCH"]
      , [Atom.lit "no such process"]
      , [Atom.lit "process", Atom.gap, Atom.lit "not", Atom.gap, Atom.lit "found"] ]
  , template := "Process specified doesn\x27t exist or has already exited.\n\nCommon causes:\n- Process ID no longer valid\n- Process exited\n- Trying to kill non-existent process\n\nSolution:\n1. Check process exists before operation\n2. Try/catch around process operations\n3. Use process manager: PM2, Forever\n4. Check PID validity" }

-- source match: /EAGAIN|try again|temporarily unavailable|resource temporarily/i
def pat83 : ErrorPattern :=
  { name := "EAGAIN_TRY_AGAIN"
  , branches :=
      [ [Atom.lit "EAGAIN"]
      , [Atom.lit "try again"]
      , [Atom.lit "temporarily unavailable"]
      , [Atom.lit "resource temporarily"] ]
  , template := "Operation temporarily unavailable - try again later.\n\nCommon causes:\n- System resource temporarily unavailable\n- Rate limited\n- Resource contention\n\nSolution:\n1. Implement retry with exponential backoff\n2. Wait and try again: setTimeout(() => retry(), 100)\n3. Check system resources\n4. Reduce concurrent operations" }

-- source match: /EMFILE|too many open files|ulimit/i
def pat84 : ErrorPattern :=
  { name := "FILE_DESCRIPTOR_LIMIT"
  , branches :=
      [ [Atom.lit "EMFILE"]
      , [Atom.lit "too many open files"]
      , [Atom.lit "ulimit"] ]
  , template := "Hit system limit for open file descriptors.\n\nCommon causes:\n- Too many files open simultaneously\n- File handles not closed\n- Process needs more file descriptors\n\nSolution:\n1. Close files after use: stream.end()\n2. Increase limit: ulimit -n 4096 (Mac/Linux)\n3. Use connection pooling\n4. Implement file descriptor management\n5. Monitor: lsof -p PID" }

-- source match: /symbolic link|symlink|ELOOP|too many.*link|circular.*link/i
def pat85 : ErrorPattern :=
  { name := "SYMBOLIC_LINK_ERROR"
  , branches :=
      [ [Atom.lit "symbolic link"]
      , [Atom.lit "symlink"]
      , [Atom.lit "ELOOP"]
      , [Atom.lit "too many", Atom.gap, Atom.lit "link"]
      , [Atom.lit "circular", Atom.gap, Atom.lit "link"] ]
  , template := "Error with symbolic links - circular reference or too many levels.\n\nCommon causes:\n- Circular symbolic link\n- Too many symlink levels\n- Following symlink not allowed\n\nSolution:\n1. Check for circular references\n2. Limit symlink following depth\n3. Use realpath to resolve: fs.realpathSync()\n4. Avoid symlinks across boundaries\n5. Break circular references" }

-- source match: /EBUSY|file.*in use|already.*use|busy|open by another/i
def pat86 : ErrorPattern :=
  { name := "FILE_ALREADY_IN_USE"
  , branches :=
      [ [Atom.lit "EBUSY"]
      , [Atom.lit "file", Atom.gap, Atom.lit "in use"]
      , [Atom.lit "already", Atom.gap, Atom.lit "use"]
      , [Atom.lit "busy"]
      , [Atom.lit "open by another"] ]
  , template := "File is currently in use by another process.\n\nCommon causes:\n- File locked by another process\n- Still being written by editor\n- Haven\x27t closed handle properly\n\nSolution:\n1. Close file handles explicitly\n2. Wait before accessing: setTimeout(..., 100)\n3. Use file locking library\n4. Close editor if editing file\n5. Use exclusive locks when needed" }

-- source match: /Buffer.*out of bounds|offset.*out|Buffer overflow|offset is out/i
def pat87 : ErrorPattern :=
  { name := "BUFFER_OUT_OF_BOUNDS"
  , branches :=
      [ [Atom.lit "Buffer", Atom.gap, Atom.lit "out of bounds"]
      , [Atom.lit "offset", Atom.gap, Atom.lit "out"]
      , [Atom.lit "Buffer overflow"]
      , [Atom.lit "offset is out"] ]
  , template := "Buffer operation attempted outside valid range.\n\nCommon causes:\n- Offset exceeds buffer length\n- Write beyond buffer size\n- Invalid buffer size\n\nSolution:\n1. Check offset < buffer.length\n2. Allocate sufficient buffer size\n3. Use: Buffer.alloc(size) for safe allocation\n4. Validate offset before operations\n5. Use Buffer.allocUnsafe() carefully" }

-- source match: /write.*encoding|encoding.*write|invalid.*encoding.*buffer/i
def pat88 : ErrorPattern :=
  { name := "BUFFER_ENCODING_WRITE_ERROR"
  , branches :=
      [ [Atom.lit "write", Atom.gap, Atom.lit "encoding"]
      , [Atom.lit "encoding", Atom.gap, Atom.lit "write"]
      , [Atom.lit "invalid", Atom.gap, Atom.lit "encoding", Atom.gap, Atom.lit "buffer"] ]
  , template := "Buffer write failed due to encoding issue.\n\nCommon causes:\n- Invalid encoding for write\n- Data not compatible with encoding\n- Offset calculation error\n\nSolution:\n1. Use valid encoding: utf8, base64, hex, ascii\n2. Ensure data matches encoding\n3. Calculate offset correctly\n4. Use Buffer.from() with encoding parameter\n5. Verify data format" }

-- source match: /crypto|cipher.*unknown|algorithm.*unknown|invalid.*algorithm/i
def pat89 : ErrorPattern :=
  { name := "CRYPTO_ALGORITHM_ERROR"
  , branches :=
      [ [Atom.lit "crypto"]
      , [Atom.lit "cipher", Atom.gap, Atom.lit "unknown"]
      , [Atom.lit "algorithm", Atom.gap, Atom.lit "unknown"]
      , [Atom.lit "invalid", Atom.gap, Atom.lit "algorithm"] ]
  , template := "Invalid or unsupported cryptographic algorithm.\n\nCommon causes:\n- Unknown cipher name\n- Algorithm not available\n- Wrong algorithm name\n\nSolution:\n1. Use supported algorithms: crypto.getCiphers()\n2. Common: aes-256-cbc, sha256\n3. Check Node.js crypto support\n4. Use correct algorithm names\n5. Update Node.js if algorithm missing" }

-- source match: /key.*invalid|key.*error|EVP_.*error|private key|public key/i
def pat90 : ErrorPattern :=
  { name := "CRYPTO_KEY_ERROR"
  , branches :=
      [ [Atom.lit "key", Atom.gap, Atom.lit "invalid"]
      , [Atom.lit "key", Atom.gap, Atom.lit "error"]
      , [Atom.lit "EVP_", Atom.gap, Atom.lit "error"]
      , [Atom.lit "private key"]
      , [Atom.lit "public key"] ]
  , template := "Cryptographic key is invalid or incorrectly formatted.\n\nCommon causes:\n- Key wrong length\n- Key wrong format\n- Corrupted key\n- Wrong key type\n\nSolution:\n1. Verify key length matches algorithm\n2. Ensure PEM format if using files\n3. Check key generation: crypto.generateKeyPairSync()\n4. Validate key format before use\n5. Use crypto libraries: node-rsa, libsodium" }

-- source match: /cluster|fork.*failed|worker.*failed|clusters/i
def pat91 : ErrorPattern :=
  { name := "CLUSTER_FORK_ERROR"
  , branches :=
      [ [Atom.lit "cluster"]
      , [Atom.lit "fork", Atom.gap, Atom.lit "failed"]
      , [Atom.lit "worker", Atom.gap, Atom.lit "failed"]
      , [Atom.lit "clusters"] ]
  , template := "Node.js cluster worker failed to fork or initialize.\n\nCommon causes:\n- Resource limit exceeded\n- Worker code has error\n- Memory insufficient\n\nSolution:\n1. Check ulimit for process limits\n2. Validate worker code runs standalone\n3. Handle worker crashes: cluster.on(\x27exit\x27)\n4. Add graceful shutdown\n5. Use process manager: PM2, systemd" }

-- source match: /Worker|worker.*thread|ERR_WORKER_INVALID_EXEC_ARGV/i
def pat92 : ErrorPattern :=
  { name := "WORKER_THREAD_ERROR"
  , branches :=
      [ [Atom.lit "Worker"]
      , [Atom.lit "worker", Atom.gap, Atom.lit "thread"]
      , [Atom.lit "ERR_WORKER_INVALID_EXEC_ARGV"] ]
  , template := "Error in worker thread creation or execution.\n\nCommon causes:\n- Worker file has syntax error\n- Invalid worker options\n- Resource limit hit\n\nSolution:\n1. Ensure worker file runs standalone\n2. Use correct API: new Worker(filename)\n3. Handle worker errors: worker.on(\x27error\x27)\n4. Properly initialize worker\n5. Clean up workers: worker.terminate()" }

-- source match: /RSA|key pair|generation.*error|bits.*invalid/i
def pat93 : ErrorPattern :=
  { name := "RSA_KEY_GENERATION_ERROR"
  , branches :=
      [ [Atom.lit "RSA"]
      , [Atom.lit "key pair"]
      , [Atom.lit "generation", Atom.gap, Atom.lit "error"]
      , [Atom.lit "bits", Atom.gap, Atom.lit "invalid"] ]
  , template := "RSA key pair generation failed.\n\nCommon causes:\n- Invalid bit size (too small)\n- System resource unavailable\n- Invalid options\n\nSolution:\n1. Use supported key sizes: 2048, 4096\n2. Increase timeout for generation\n3. Check system has enough entropy\n4. Use async generation: generateKeyPair()\n5. Verify options object format" }

-- source match: /HTTP\/2|http2|ERR_HTTP2.*|h2 error/i
def pat94 : ErrorPattern :=
  { name := "HTTP2_ERROR"
  , branches :=
      [ [Atom.lit "HTTP/2"]
      , [Atom.lit "http2"]
      , [Atom.lit "ERR_HTTP2", Atom.gap]
      , [Atom.lit "h2 error"] ]
  , template := "HTTP/2 protocol error.\n\nCommon causes:\n- HTTP/2 not fully supported\n- Stream issues\n- Connection error\n\nSolution:\n1. Ensure Node.js version supports HTTP/2\n2. Check HTTP/2 enabled\n3. Handle stream errors: stream.on(\x27error\x27)\n4. Verify TLS certificate for HTTP/2\n5. Check server configuration" }

-- source match: /DNS|ENOTFOUND|getaddrinfo|ENETUNREACH|EHOSTUNREACH/i
def pat95 : ErrorPattern :=
  { name := "DNS_LOOKUP_ERROR"
  , branches :=
      [ [Atom.lit "DNS"]
      , [Atom.lit "ENOTFOUND"]
      , [Atom.lit "getaddrinfo"]
      , [Atom.lit "ENETUNREACH"]
      , [Atom.lit "EHOSTUNREACH"] ]
  , template := "DNS lookup failed - cannot resolve hostname.\n\nCommon causes:\n- Hostname doesn\x27t exist\n- Network unreachable\n- DNS server unavailable\n- Wrong hostname\n\nSolution:\n1. Check hostname spelling\n2. Verify DNS is working: nslookup\n3. Add error handling: dns.lookup(...)\n4. Use fallback DNS: 8.8.8.8\n5. Check network connectivity" }

-- source match: /child.*timeout|spawn.*error|exec.*timeout|timeout.*process/i
def pat96 : ErrorPattern :=
  { name := "CHILD_PROCESS_TIMEOUT"
  , branches :=
      [ [Atom.lit "child", Atom.gap, Atom.lit "timeout"]
      , [Atom.lit "spawn", Atom.gap, Atom.lit "error"]
      , [Atom.lit "exec", Atom.gap, Atom.lit "timeout"]
      , [Atom.lit "timeout", Atom.gap, Atom.lit "process"] ]
  , template := "Child process operation timed out.\n\nCommon causes:\n- Process taking too long\n- Timeout value too short\n- Process hanging/deadlock\n\nSolution:\n1. Increase timeout: \x7b timeout: 30000 \x7d\n2. Implement timeout: setTimeout(..., timeout)\n3. Kill after timeout: child.kill(\x27SIGTERM\x27)\n4. Debug process: check what it\x27s doing\n5. Use \x27--timeout\x27 flag if needed" }

-- source match: /spread|\.\.\.|\.\.\.|spread.*iterable|not iterable/i
def pat97 : ErrorPattern :=
  { name := "SPREAD_OPERATOR_ERROR"
  , branches :=
      [ [Atom.lit "spread"]
      , [Atom.lit "..."]
      , [Atom.lit "..."]
      , [Atom.lit "spread", Atom.gap, Atom.lit "iterable"]
      , [Atom.lit "not iterable"] ]
  , template := "Spread operator error - trying to spread non-iterable.\n\nCommon causes:\n- Spreading null/undefined\n- Spreading non-iterable object\n- Using spread on wrong type\n\nSolution:\n1. Check value is iterable before spread\n2. Convert to array: Array.from(obj)\n3. Use optional: ...obj || []\n4. Verify object is iterable\n5. Use for-of if not spreadable" }

-- source match: /destructuring|destructur.*error|cannot destructure|destructure.*null/i
def pat98 : ErrorPattern :=
  { name := "DESTRUCTURING_ERROR"
  , branches :=
      [ [Atom.lit "destructuring"]
      , [Atom.lit "destructur", Atom.gap, Atom.lit "error"]
      , [Atom.lit "cannot destructure"]
      , [Atom.lit "destructure", Atom.gap, Atom.lit "null"] ]
  , template := "Object/array destructuring failed.\n\nCommon causes:\n- Destructuring null/undefined\n- Property doesn\x27t exist\n- Wrong destructuring syntax\n\nSolution:\n1. Add null checks: const \x7b prop \x7d = obj || \x7b\x7d\n2. Use default values: const \x7b prop = default \x7d = obj\n3. Verify property exists\n4. Check destructuring syntax\n5. Use optional chaining: obj?.prop" }

-- source match: /WeakMap|WeakSet|weak.*map|weak.*set|Invalid.*value/i
def pat99 : ErrorPattern :=
  { name := "WEAKMAP_ERROR"
  , branches :=
      [ [Atom.lit "WeakMap"]
      , [Atom.lit "WeakSet"]
      , [Atom.lit "weak", Atom.gap, Atom.lit "map"]
      , [Atom.lit "weak", Atom.gap, Atom.lit "set"]
      , [Atom.lit "Invalid", Atom.gap, Atom.lit "value"] ]
  , template := "WeakMap or WeakSet operation error.\n\nCommon causes:\n- Using non-object as key in WeakMap\n- Using primitives instead of objects\n- Incorrect WeakMap/WeakSet usage\n\nSolution:\n1. Only use objects as WeakMap keys\n2. Don\x27t use primitives: use Map for those\n3. Check value type before adding\n4. Use Map for primitives: new Map()\n5. WeakMap keys must be objects" }

-- source match: /Proxy|trap.*invalid|proxy.*invalid|invariant violation/i
def pat100 : ErrorPattern :=
  { name := "PROXY_ERROR"
  , branches :=
      [ [Atom.lit "Proxy"]
      , [Atom.lit "trap", Atom.gap, Atom.lit "invalid"]
      , [Atom.lit "proxy", Atom.gap, Atom.lit "invalid"]
      , [Atom.lit "invariant violation"] ]
  , template := "Proxy trap or Proxy invariant validation failed.\n\nCommon causes:\n- Trap returning invalid value\n- Trap not respecting invariants\n- Proxy configuration error\n\nSolution:\n1. Check trap returns correct type\n2. Respect proxy invariants\n3. Return from get trap: return value\n4. Validate trap implementation\n5. Use Proxy carefully - test thoroughly" }

-- source match: /generator|function\*|yield|next\(\)|generator.*ended/i
def pat101 : ErrorPattern :=
  { name := "GENERATOR_ERROR"
  , branches :=
      [ [Atom.lit "generator"]
      , [Atom.lit "function*"]
      , [Atom.lit "yield"]
      , [Atom.lit "next()"]
      , [Atom.lit "generator", Atom.gap, Atom.lit "ended"] ]
  , template := "Error in generator function or generator iteration.\n\nCommon causes:\n- Calling next() after done\n- Invalid yield statement\n- Not properly initializing generator\n\nSolution:\n1. Check \x7b done \x7d flag before using value\n2. Use for-of for generators: for (const val of gen)\n3. Properly create generator: const gen = genFunc()\n4. Handle StopIteration properly\n5. Verify generator function syntax: function*" }

-- source match: /schema|validation.*failed|schema.*error|ajv|not valid/i
def pat102 : ErrorPattern :=
  { name := "JSON_SCHEMA_VALIDATION_ERROR"
  , branches :=
      [ [Atom.lit "schema"]
      , [Atom.lit "validation", Atom.gap, Atom.lit "failed"]
      , [Atom.lit "schema", Atom.gap, Atom.lit "error"]
      , [Atom.lit "ajv"]
      , [Atom.lit "not valid"] ]
  , template := "JSON schema validation failed.\n\nCommon causes:\n- Data doesn\x27t match schema\n- Required field missing\n- Type mismatch with schema\n- Pattern validation failed\n\nSolution:\n1. Check error.dataPath for which property\n2. Verify all required fields present\n3. Check data types match schema\n4. Review schema definition\n5. Use schema validator: ajv, joi" }

-- source match: /certificate.*chain|unable to verify.*chain|depth zero|cert.*chain/i
def pat103 : ErrorPattern :=
  { name := "CERTIFICATE_CHAIN_ERROR"
  , branches :=
      [ [Atom.lit "certificate", Atom.gap, Atom.lit "chain"]
      , [Atom.lit "unable to verify", Atom.gap, Atom.lit "chain"]
      , [Atom.lit "depth zero"]
      , [Atom.lit "cert", Atom.gap, Atom.lit "chain"] ]
  , template := "SSL certificate chain validation failed.\n\nCommon causes:\n- Intermediate cert missing\n- Self-signed certificate\n- Cert expired\n- Wrong chain order\n\nSolution:\n1. Ensure full chain is provided\n2. For self-signed: NODE_TLS_REJECT_UNAUTHORIZED=0 (dev only)\n3. Update cert to valid one\n4. Check cert isn\x27t expired: openssl x509 -in cert.pem -text\n5. Proper order: leaf, intermediate, root" }

-- source match: /IDNA|punycode|domain.*format|internationalized.*domain/i
def pat104 : ErrorPattern :=
  { name := "IDNA_ERROR"
  , branches :=
      [ [Atom.lit "IDNA"]
      , [Atom.lit "punycode"]
      , [Atom.lit "domain", Atom.gap, Atom.lit "format"]
      , [Atom.lit "internationalized", Atom.gap, Atom.lit "domain"] ]
  , template := "International domain name (IDN) encoding error.\n\nCommon causes:\n- Invalid Unicode domain name\n- Punycode conversion failed\n- Invalid domain format\n\nSolution:\n1. Use proper IDN format\n2. Use punycode library: install \x27punycode\x27\n3. Encode domain: require(\x27punycode\x27).toASCII(domain)\n4. Verify domain format\n5. Check URL encoding" }

-- source match: /path.*traversal|\.\.\/|directory traversal|path.*escape|sanitize/i
def pat105 : ErrorPattern :=
  { name := "PATH_TRAVERSAL_ATTEMPT"
  , branches :=
      [ [Atom.lit "path", Atom.gap, Atom.lit "traversal"]
      , [Atom.lit "../"]
      , [Atom.lit "directory traversal"]
      , [Atom.lit "path", Atom.gap, Atom.lit "escape"]
      , [Atom.lit "sanitize"] ]
  , template := "Path traversal attack or suspicious path detected.\n\nCommon causes:\n- Using unsanitized user input in paths\n- Not validating file path\n- Allowing ../\n\nSolution:\n1. Validate paths: path.resolve() and check inside base\n2. Use path.join() and validate result\n3. Never concatenate user input directly\n4. Whitelist allowed paths\n5. Use path.normalize() and validate" }

-- source match: /timezone|time.?zone|offset.*invalid|IANA.*timezone/i
def pat106 : ErrorPattern :=
  { name := "DATE_TIMEZONE_ERROR"
  , branches :=
      [ [Atom.lit "timezone"]
      , [Atom.lit "time", Atom.anyOpt, Atom.lit "zone"]
      , [Atom.lit "offset", Atom.gap, Atom.lit "invalid"]
      , [Atom.lit "IANA", Atom.gap, Atom.lit "timezone"] ]
  , template := "Date or timezone conversion error.\n\nCommon causes:\n- Invalid timezone ID\n- Timezone not recognized\n- Daylight savings issue\n\nSolution:\n1. Use IANA timezone names: America/New_York\n2. Use moment-timezone or date-fns\n3. Avoid manual offset calculations\n4. Verify timezone ID exists\n5. Account for daylight savings" }

-- source match: /transaction|commit.*failed|rollback|ACID|isolation/i
def pat107 : ErrorPattern :=
  { name := "TRANSACTION_ERROR"
  , branches :=
      [ [Atom.lit "transaction"]
      , [Atom.lit "commit", Atom.gap, Atom.lit "failed"]
      , [Atom.lit "rollback"]
      , [Atom.lit "ACID"]
      , [Atom.lit "isolation"] ]
  , template := "Database transaction failed or rolled back.\n\nCommon causes:\n- Constraint violation\n- Deadlock detected\n- Transaction timeout\n- Isolation level conflict\n\nSolution:\n1. Check constraint violations\n2. Implement retry logic for deadlocks\n3. Increase transaction timeout if needed\n4. Review isolation levels\n5. Use connection pool for concurrency" }

-- source match: /gzip|deflate|brotli|compress.*error|decompress.*error|zlib/i
def pat108 : ErrorPattern :=
  { name := "COMPRESSION_ERROR"
  , branches :=
      [ [Atom.lit "gzip"]
      , [Atom.lit "deflate"]
      , [Atom.lit "brotli"]
      , [Atom.lit "compress", Atom.gap, Atom.lit "error"]
      , [Atom.lit "decompress", Atom.gap, Atom.lit "error"]
      , [Atom.lit "zlib"] ]
  , template := "Compression or decompression failed.\n\nCommon causes:\n- Corrupted compressed data\n- Wrong decompression codec\n- Incomplete data\n- Memory error\n\nSolution:\n1. Check data isn\x27t corrupted\n2. Use correct decompression: zlib.gunzip()\n3. Handle incomplete data\n4. Catch errors: stream.on(\x27error\x27)\n5. Use compression headers correctly" }

-- source match: /OpenSSL|libssl|error in.*library|engine|OPENSSLDIR/i
def pat109 : ErrorPattern :=
  { name := "OPENSSL_ERROR"
  , branches :=
      [ [Atom.lit "OpenSSL"]
      , [Atom.lit "libssl"]
      , [Atom.lit "error in", Atom.gap, Atom.lit "library"]
      , [Atom.lit "engine"]
      , [Atom.lit "OPENSSLDIR"] ]
  , template := "OpenSSL library error - usually cryptographic operation failed.\n\nCommon causes:\n- OpenSSL not installed\n- Version mismatch\n- Cryptographic operation error\n\nSolution:\n1. Verify OpenSSL installed: openssl version\n2. Check Node version uses compatible OpenSSL\n3. Rebuild Node if needed\n4. Check OpenSSL permissions\n5. Update OpenSSL to latest" }

-- source match: /segmentation fault|SIGSEGV|access violation|crash/i
def pat110 : ErrorPattern :=
  { name := "MEMORY_ACCESS_VIOLATION"
  , branches :=
      [ [Atom.lit "segmentation fault"]
      , [Atom.lit "SIGSEGV"]
      , [Atom.lit "access violation"]
      , [Atom.lit "crash"] ]
  , template := "Segmentation fault - memory access violation.\n\nCommon causes:\n- Native module bug\n- Buffer overflow\n- Use-after-free\n- Out of bounds access\n\nSolution:\n1. Update native modules\n2. Check for vulnerabilities in modules\n3. Use bounds checking\n4. Avoid direct memory access\n5. Use valgrind for debugging (advanced)" }

-- source match: /WASM|WebAssembly|wasm.*error|compiled code|table.*element/i
def pat111 : ErrorPattern :=
  { name := "WASM_ERROR"
  , branches :=
      [ [Atom.lit "WASM"]
      , [Atom.lit "WebAssembly"]
      , [Atom.lit "wasm", Atom.gap, Atom.lit "error"]
      , [Atom.lit "compiled code"]
      , [Atom.lit "table", Atom.gap, Atom.lit "element"] ]
  , template := "WebAssembly execution error.\n\nCommon causes:\n- Invalid WASM module\n- Function not found in WASM\n- Memory access error\n- Type mismatch\n\nSolution:\n1. Validate WASM module format\n2. Check exported functions exist\n3. Verify memory page size\n4. Use WASM debugging tools\n5. Check WASM version compatibility" }

-- source match: /snapshot|v8.*snapshot|serialize|binary.*snapshot/i
def pat112 : ErrorPattern :=
  { name := "SNAPSHOT_ERROR"
  , branches :=
      [ [Atom.lit "snapshot"]
      , [Atom.lit "v8", Atom.gap, Atom.lit "snapshot"]
      , [Atom.lit "serialize"]
      , [Atom.lit "binary", Atom.gap, Atom.lit "snapshot"] ]
  , template := "V8 snapshot creation or loading failed.\n\nCommon causes:\n- Snapshot incompatible with Node version\n- Snapshot corrupted\n- Invalid snapshot format\n\nSolution:\n1. Regenerate snapshot for current Node version\n2. Ensure snapshot is valid binary\n3. Check snapshot compatibility\n4. Use snapshot feature correctly\n5. Clean snapshots and rebuild" }

-- source match: /Intl|internationalization|locale|collation|intl.*error/i
def pat113 : ErrorPattern :=
  { name := "INTL_ERROR"
  , branches :=
      [ [Atom.lit "Intl"]
      , [Atom.lit "internationalization"]
      , [Atom.lit "locale"]
      , [Atom.lit "collation"]
      , [Atom.lit "intl", Atom.gap, Atom.lit "error"] ]
  , template := "Internationalization (Intl) API error.\n\nCommon causes:\n- Invalid locale code\n- Feature not supported\n- Unsupported operation\n\nSolution:\n1. Use valid locale: en-US, fr-FR\n2. Check platform Intl support\n3. Use Intl.DateTimeFormat, Intl.NumberFormat\n4. Handle unsupported locales\n5. Fallback to default locale" }

-- source match: /invalid status code|status.*not.*number|ERR_HTTP_INVALID_STATUS_CODE/i
def pat114 : ErrorPattern :=
  { name := "EXPRESS_INVALID_STATUS_CODE"
  , branches :=
      [ [Atom.lit "invalid status code"]
      , [Atom.lit "status", Atom.gap, Atom.lit "not", Atom.gap, Atom.lit "number"]
      , [Atom.lit "ERR_HTTP_INVALID_STATUS_CODE"] ]
  , template := "Express status code is invalid - must be a number between 100-599.\n\nCommon causes:\n- Non-numeric status code\n- Status code out of range\n- res.status() called with string\n\nSolution:\n1. Use valid HTTP codes: 200, 404, 500, etc.\n2. Ensure status is number: res.status(200)\n3. Check valid range: 100-599\n4. Don\x27t pass string: res.status(\x27200\x27) \u274c res.status(200) \u2713" }

-- source match: /response already.*sent|Cannot.*headers after sent|res\.send.*twice/i
def pat115 : ErrorPattern :=
  { name := "EXPRESS_RESPONSE_ALREADY_SENT"
  , branches :=
      [ [Atom.lit "response already", Atom.gap, Atom.lit "sent"]
      , [Atom.lit "Cannot", Atom.gap, Atom.lit "headers after sent"]
      , [Atom.lit "res.send", Atom.gap, Atom.lit "twice"] ]
  , template := "Trying to send response twice or set headers after response started.\n\nCommon causes:\n- res.send() called multiple times\n- res.json() then res.send()\n- Setting headers after res.write()\n- Missing return statement\n\nSolution:\n1. Use return: return res.send(data)\n2. Use if/else, not multiple sends\n3. Set headers before writing: res.set(\x27X-Header\x27, val)\n4. Structure: headers \u2192 write \u2192 end" }

-- source match: /Cannot GET|Cannot POST|Cannot PUT|Cannot DELETE|Cannot PATCH|404.*not found/i
def pat116 : ErrorPattern :=
  { name := "EXPRESS_ROUTE_NOT_FOUND"
  , branches :=
      [ [Atom.lit "Cannot GET"]
      , [Atom.lit "Cannot POST"]
      , [Atom.lit "Cannot PUT"]
      , [Atom.lit "Cannot DELETE"]
      , [Atom.lit "Cannot PATCH"]
      , [Atom.lit "404", Atom.gap, Atom.lit "not found"] ]
  , template := "Express route handler not found - no matching route defined.\n\nCommon causes:\n- Route path doesn\x27t exist\n- Wrong HTTP method (GET vs POST)\n- Route path typo\n- Route registered after error middleware\n\nSolution:\n1. Verify route exists: app.get(\x27/path\x27, ...)\n2. Check HTTP method matches request\n3. Use app.all(\x27*\x27) for catch-all 404\n4. Place 404 handler last in middleware chain\n5. Check route path spelling" }

-- source match: /middleware.*next|hanging request|request.*timeout.*middleware|next.*not.*called/i
def pat117 : ErrorPattern :=
  { name := "EXPRESS_MIDDLEWARE_NOT_CALLED_NEXT"
  , branches :=
      [ [Atom.lit "middleware", Atom.gap, Atom.lit "next"]
      , [Atom.lit "hanging request"]
      , [Atom.lit "request", Atom.gap, Atom.lit "timeout", Atom.gap, Atom.lit "middleware"]
      , [Atom.lit "next", Atom.gap, Atom.lit "not", Atom.gap, Atom.lit "called"] ]
  , template := "Middleware didn\x27t call next() and didn\x27t send response.\n\nCommon causes:\n- Forgot to call next() in middleware\n- Forgot to send response (res.send)\n- Middleware code throwing error\n- Async middleware promise not awaited\n\nSolution:\n1. Call next() to pass to next middleware\n2. OR send response: res.send() or res.json()\n3. Async middleware: make handler async and use try/catch\n4. Use: app.use((req, res, next) => \x7b next() \x7d)" }

-- source match: /middleware.*not.*function|middleware.*must.*function|app\.use.*function/i
def pat118 : ErrorPattern :=
  { name := "EXPRESS_INVALID_MIDDLEWARE"
  , branches :=
      [ [Atom.lit "middleware", Atom.gap, Atom.lit "not", Atom.gap, Atom.lit "function"]
      , [Atom.lit "middleware", Atom.gap, Atom.lit "must", Atom.gap, Atom.lit "function"]
      , [Atom.lit "app.use", Atom.gap, Atom.lit "function"] ]
  , template := "Middleware is not a function - must be a valid function.\n\nCommon causes:\n- Passing non-function to app.use()\n- Middleware incorrectly defined\n- Import error returning undefined\n\nSolution:\n1. Ensure middleware is function: app.use((req, res, next) => \x7b\x7d)\n2. Check import: const middleware = require(\x27./middleware\x27)\n3. Verify file exports function\n4. Check middleware definition syntax" }

-- source match: /body.?parser|payload.*too.*large|request.*entity.*too.*large|413/i
def pat119 : ErrorPattern :=
  { name := "EXPRESS_BODY_PARSER_ERROR"
  , branches :=
      [ [Atom.lit "body", Atom.anyOpt, Atom.lit "parser"]
      , [Atom.lit "payload", Atom.gap, Atom.lit "too", Atom.gap, Atom.lit "large"]
      , [Atom.lit "request", Atom.gap, Atom.lit "entity", Atom.gap, Atom.lit "too", Atom.gap, Atom.lit "large"]
      , [Atom.lit "413"] ]
  , template := "Request body exceeds size limit set in body parser.\n\nCommon causes:\n- Request body too large\n- Body parser limit too small\n- Sending large file without multipart\n\nSolution:\n1. Increase limit: express.json(\x7b limit: \x2750mb\x27 \x7d)\n2. Use \x27large\x27 for big bodies: \x7b limit: \x27100mb\x27 \x7d\n3. Use multipart for files: multer middleware\n4. Configure before routes:\n   app.use(express.json(\x7b limit: \x2750mb\x27 \x7d))" }

-- source match: /invalid json|malformed.*json|body.*parser.*json|SyntaxError.*JSON/i
def pat120 : ErrorPattern :=
  { name := "EXPRESS_INVALID_JSON"
  , branches :=
      [ [Atom.lit "invalid json"]
      , [Atom.lit "malformed", Atom.gap, Atom.lit "json"]
      , [Atom.lit "body", Atom.gap, Atom.lit "parser", Atom.gap, Atom.lit "json"]
      , [Atom.lit "SyntaxError", Atom.gap, Atom.lit "JSON"] ]
  , template := "Request body contains invalid JSON.\n\nCommon causes:\n- Client sends malformed JSON\n- Missing quotes on strings\n- Trailing comma\n- Invalid escape sequences\n\nSolution:\n1. Validate JSON on client before sending\n2. Add error handler: app.use((err, req, res, next) => \x7b\x7d)\n3. Log invalid JSON for debugging\n4. Return 400 status for invalid JSON\n5. Check Content-Type header is application/json" }

-- source match: /CORS.*not.*enabled|no access.*control.*allow.*origin|can\x27t access|cross.?origin/i
def pat121 : ErrorPattern :=
  { name := "EXPRESS_CORS_DISABLED"
  , branches :=
      [ [Atom.lit "CORS", Atom.gap, Atom.lit "not", Atom.gap, Atom.lit "enabled"]
      , [Atom.lit "no access", Atom.gap, Atom.lit "control", Atom.gap, Atom.lit "allow", Atom.gap, Atom.lit "origin"]
      , [Atom.lit "can\x27t access"]
      , [Atom.lit "cross", Atom.anyOpt, Atom.lit "origin"] ]
  , template := "CORS headers not sent - cross-origin request blocked.\n\nCommon causes:\n- CORS not enabled\n- Access-Control-Allow-Origin not set\n- Requesting from different origin\n- Browser enforces CORS policy\n\nSolution:\n1. Install cors: npm install cors\n2. Use middleware: const cors = require(\x27cors\x27); app.use(cors())\n3. Or configure: app.use(cors(\x7b origin: \x27http://localhost:3000\x27 \x7d))\n4. For credentials: credentials: true in CORS config\n5. Allow specific methods: methods: [\x27GET\x27, \x27POST\x27]" }

-- source match: /trust proxy|X-Forwarded|req\.ip|X-Real-IP|behind.*proxy/i
def pat122 : ErrorPattern :=
  { name := "EXPRESS_TRUST_PROXY_ERROR"
  , branches :=
      [ [Atom.lit "trust proxy"]
      , [Atom.lit "X-Forwarded"]
      , [Atom.lit "req.ip"]
      , [Atom.lit "X-Real-IP"]
      , [Atom.lit "behind", Atom.gap, Atom.lit "proxy"] ]
  , template := "Trust proxy not configured properly - IP address wrong or headers not trusted.\n\nCommon causes:\n- Behind reverse proxy but trust proxy not set\n- Wrong remote address gotten\n- Can\x27t access real client IP\n\nSolution:\n1. Set trust proxy if behind proxy: app.set(\x27trust proxy\x27, 1)\n2. Trust specific proxy: app.set(\x27trust proxy\x27, \x27loopback\x27)\n3. Get correct IP: req.ip (not req.connection.remoteAddress)\n4. Check X-Forwarded-For headers\n5. For AWS/Heroku: app.set(\x27trust proxy\x27, true)" }

-- source match: /render.*not.*function|res\.render|view.*not.*found|template.*error/i
def pat123 : ErrorPattern :=
  { name := "EXPRESS_RENDER_ERROR"
  , branches :=
      [ [Atom.lit "render", Atom.gap, Atom.lit "not", Atom.gap, Atom.lit "function"]
      , [Atom.lit "res.render"]
      , [Atom.lit "view", Atom.gap, Atom.lit "not", Atom.gap, Atom.lit "found"]
      , [Atom.lit "template", Atom.gap, Atom.lit "error"] ]
  , template := "View rendering failed - template engine issue.\n\nCommon causes:\n- View engine not set: app.set(\x27view engine\x27)\n- Template file not found\n- Template syntax error\n- View directory wrong\n\nSolution:\n1. Set view engine: app.set(\x27view engine\x27, \x27ejs\x27)\n2. Set views directory: app.set(\x27views\x27, \x27./views\x27)\n3. Ensure template file exists\n4. Check template syntax for errors\n5. Use: res.render(\x27template\x27, \x7b data \x7d)" }

-- source match: /invalid redirect|res\.redirect.*not.*url|redirect.*malformed|location.*header/i
def pat124 : ErrorPattern :=
  { name := "EXPRESS_INVALID_REDIRECT"
  , branches :=
      [ [Atom.lit "invalid redirect"]
      , [Atom.lit "res.redirect", Atom.gap, Atom.lit "not", Atom.gap, Atom.lit "url"]
      , [Atom.lit "redirect", Atom.gap, Atom.lit "malformed"]
      , [Atom.lit "location", Atom.gap, Atom.lit "header"] ]
  , template := "Invalid redirect URL provided to res.redirect().\n\nCommon causes:\n- URL not valid\n- Redirect URL has spaces\n- Invalid characters in URL\n\nSolution:\n1. Use valid URL: res.redirect(\x27/path\x27)\n2. Use full URL: res.redirect(\x27http://example.com\x27)\n3. Encode URL: encodeURI() if needed\n4. Validate URL format before redirect\n5. Use 301 for permanent: res.redirect(301, \x27/path\x27)" }

-- source match: /content.?type|charset|media.*type|accepts/i
def pat125 : ErrorPattern :=
  { name := "EXPRESS_CONTENT_TYPE_MISMATCH"
  , branches :=
      [ [Atom.lit "content", Atom.anyOpt, Atom.lit "type"]
      , [Atom.lit "charset"]
      , [Atom.lit "media", Atom.gap, Atom.lit "type"]
      , [Atom.lit "accepts"] ]
  , template := "Content-Type mismatch or incompatible accept header.\n\nCommon causes:\n- Content-Type header wrong\n- Charset encoding mismatch\n- Client doesn\x27t accept response format\n- res.type() set incorrectly\n\nSolution:\n1. Set content-type: res.type(\x27application/json\x27)\n2. Use res.json() for JSON (sets correct type)\n3. Set charset: res.type(\x27text/html; charset=utf-8\x27)\n4. Check client accepts format\n5. Use res.set(\x27Content-Type\x27, \x27application/json\x27)" }

-- source match: /cookie|res\.cookie|Set-Cookie|cookie.*parser|signed.*cookie/i
def pat126 : ErrorPattern :=
  { name := "EXPRESS_COOKIE_ERROR"
  , branches :=
      [ [Atom.lit "cookie"]
      , [Atom.lit "res.cookie"]
      , [Atom.lit "Set-Cookie"]
      , [Atom.lit "cookie", Atom.gap, Atom.lit "parser"]
      , [Atom.lit "signed", Atom.gap, Atom.lit "cookie"] ]
  , template := "Cookie operation failed - parsing or setting cookie error.\n\nCommon causes:\n- Cookie size too large\n- Invalid cookie name/value\n- Cookie middleware not loaded\n- Signed cookie key not set\n\nSolution:\n1. Use cookie-parser middleware: app.use(cookieParser(\x27secret\x27))\n2. Set cookie: res.cookie(\x27name\x27, \x27value\x27)\n3. Get cookie: req.cookies.name or req.signedCookies.name\n4. Keep cookie size small\n5. Use secure/httpOnly for security: \x7b secure: true, httpOnly: true \x7d" }

-- source match: /session|req\.session|session.*middleware|express.?session/i
def pat127 : ErrorPattern :=
  { name := "EXPRESS_SESSION_ERROR"
  , branches :=
      [ [Atom.lit "session"]
      , [Atom.lit "req.session"]
      , [Atom.lit "session", Atom.gap, Atom.lit "middleware"]
      , [Atom.lit "express", Atom.anyOpt, Atom.lit "session"] ]
  , template := "Session middleware error - configuration or storage issue.\n\nCommon causes:\n- express-session not installed\n- Session store not configured\n- Session middleware not loaded\n- Session data corrupted\n\nSolution:\n1. Install: npm install express-session\n2. Configure store (Redis, MongoDB): new RedisStore()\n3. Use middleware: app.use(session(\x7b secret: \x27key\x27, store: ... \x7d))\n4. Load before routes\n5. Access: req.session.userId = value" }

-- source match: /authorization|auth.*header|Bearer.*token|unauthorized.*header/i
def pat128 : ErrorPattern :=
  { name := "EXPRESS_AUTH_HEADER_ERROR"
  , branches :=
      [ [Atom.lit "authorization"]
      , [Atom.lit "auth", Atom.gap, Atom.lit "header"]
      , [Atom.lit "Bearer", Atom.gap, Atom.lit "token"]
      , [Atom.lit "unauthorized", Atom.gap, Atom.lit "header"] ]
  , template := "Authorization header missing or malformed.\n\nCommon causes:\n- No Authorization header sent\n- Wrong format: should be \"Bearer <token>\"\n- Token not included\n- Bearer prefix missing\n\nSolution:\n1. Client sends: Authorization: Bearer <token>\n2. Parse in middleware: const token = req.headers.authorization?.split(\x27 \x27)[1]\n3. Verify token exists before using\n4. Handle missing auth: return res.status(401).send(\x27Unauthorized\x27)\n5. Use passport or jwt middleware for auth" }

-- source match: /multer|file.*upload|multipart.*form|upload.*error|field.*too.*large/i
def pat129 : ErrorPattern :=
  { name := "EXPRESS_MULTER_ERROR"
  , branches :=
      [ [Atom.lit "multer"]
      , [Atom.lit "file", Atom.gap, Atom.lit "upload"]
      , [Atom.lit "multipart", Atom.gap, Atom.lit "form"]
      , [Atom.lit "upload", Atom.gap, Atom.lit "error"]
      , [Atom.lit "field", Atom.gap, Atom.lit "too", Atom.gap, Atom.lit "large"] ]
  , template := "File upload error - multer middleware issue.\n\nCommon causes:\n- File size exceeds limit\n- Field count exceeds limit\n- Wrong field name\n- Multer not configured\n\nSolution:\n1. Install: npm install multer\n2. Configure: const multer = require(\x27multer\x27); const upload = multer(\x7b dest: \x27uploads/\x27 \x7d)\n3. Use on route: app.post(\x27/upload\x27, upload.single(\x27file\x27), ...)\n4. Access file: req.file\n5. Set limits: \x7b fileSize: 1024 * 1024 * 10 \x7d for 10MB" }

-- source match: /rate.*limit|too.*many.*request|429|throttle|limit.*exceeded/i
def pat130 : ErrorPattern :=
  { name := "EXPRESS_RATE_LIMIT_EXCEEDED"
  , branches :=
      [ [Atom.lit "rate", Atom.gap, Atom.lit "limit"]
      , [Atom.lit "too", Atom.gap, Atom.lit "many", Atom.gap, Atom.lit "request"]
      , [Atom.lit "429"]
      , [Atom.lit "throttle"]
      , [Atom.lit "limit", Atom.gap, Atom.lit "exceeded"] ]
  , template := "Rate limit exceeded - too many requests.\n\nCommon causes:\n- Rate limit middleware active\n- IP exceeded request quota\n- Time window limit reached\n\nSolution:\n1. Install: npm install express-rate-limit\n2. Create limiter: \n   const limiter = rateLimit(\x7b windowMs: 15*60*1000, max: 100 \x7d)\n3. Use on routes: app.use(limiter)\n4. Implement backoff on client\n5. Different limits for different endpoints" }

-- source match: /helmet|security.*header|X-Frame-Options|CSP|content.*security/i
def pat131 : ErrorPattern :=
  { name := "EXPRESS_HELMET_ERROR"
  , branches :=
      [ [Atom.lit "helmet"]
      , [Atom.lit "security", Atom.gap, Atom.lit "header"]
      , [Atom.lit "X-Frame-Options"]
      , [Atom.lit "CSP"]
      , [Atom.lit "content", Atom.gap, Atom.lit "security"] ]
  , template := "Helmet security middleware blocked request or header issue.\n\nCommon causes:\n- CSP (Content Security Policy) violated\n- Frame embedding not allowed\n- Security header misconfigured\n\nSolution:\n1. Install: npm install helmet\n2. Use: app.use(helmet())\n3. Configure CSP: helmet.contentSecurityPolicy(\x7b directives: \x7b ... \x7d \x7d)\n4. Allow specific sources in CSP\n5. Check browser console for CSP violations" }

-- source match: /compression|compress|gzip|deflate|compression.*error/i
def pat132 : ErrorPattern :=
  { name := "EXPRESS_COMPRESSION_ENABLED_WRONG"
  , branches :=
      [ [Atom.lit "compression"]
      , [Atom.lit "compress"]
      , [Atom.lit "gzip"]
      , [Atom.lit "deflate"]
      , [Atom.lit "compression", Atom.gap, Atom.lit "error"] ]
  , template := "Compression middleware issue - response compression error.\n\nCommon causes:\n- Compression not working\n- Already compressed content\n- Unsupported encoding\n- Wrong middleware order\n\nSolution:\n1. Install: npm install compression\n2. Use early: app.use(compression())\n3. Place before routes\n4. Check if response already compressed\n5. Set quality: compression(\x7b level: 6 \x7d)" }

-- source match: /morgan|logging.*error|morgan.*format|log.*format/i
def pat133 : ErrorPattern :=
  { name := "EXPRESS_MORGAN_LOG_ERROR"
  , branches :=
      [ [Atom.lit "morgan"]
      , [Atom.lit "logging", Atom.gap, Atom.lit "error"]
      , [Atom.lit "morgan", Atom.gap, Atom.lit "format"]
      , [Atom.lit "log", Atom.gap, Atom.lit "format"] ]
  , template := "Morgan logging middleware error or misconfiguration.\n\nCommon causes:\n- Morgan not installed\n- Invalid format string\n- Wrong middleware order\n- Stream error\n\nSolution:\n1. Install: npm install morgan\n2. Use: app.use(morgan(\x27combined\x27))\n3. Place early in middleware\n4. Use format: combined, common, short, tiny\n5. Custom: morgan(\x27:method :url :status\x27)" }

-- source match: /express.?validator|validation.*failed|validationResult|check.*validation/i
def pat134 : ErrorPattern :=
  { name := "EXPRESS_VALIDATOR_ERROR"
  , branches :=
      [ [Atom.lit "express", Atom.anyOpt, Atom.lit "validator"]
      , [Atom.lit "validation", Atom.gap, Atom.lit "failed"]
      , [Atom.lit "validationResult"]
      , [Atom.lit "check", Atom.gap, Atom.lit "validation"] ]
  , template := "express-validator validation error or misconfiguration.\n\nCommon causes:\n- Validators not run\n- Validation rules incorrect\n- validationResult not checked\n- Error not propagated\n\nSolution:\n1. Install: npm install express-validator\n2. Import: const \x7b body, validationResult \x7d = require(\x27express-validator\x27)\n3. Add validators: body(\x27email\x27).isEmail()\n4. Check results: const errors = validationResult(req)\n5. Return errors: res.status(400).send(errors.array())" }

-- source match: /passport|authentication.*failed|user.*not.*found|auth.*error/i
def pat135 : ErrorPattern :=
  { name := "EXPRESS_PASSPORT_ERROR"
  , branches :=
      [ [Atom.lit "passport"]
      , [Atom.lit "authentication", Atom.gap, Atom.lit "failed"]
      , [Atom.lit "user", Atom.gap, Atom.lit "not", Atom.gap, Atom.lit "found"]
      , [Atom.lit "auth", Atom.gap, Atom.lit "error"] ]
  , template := "Passport authentication middleware error.\n\nCommon causes:\n- Strategy not configured\n- User not found\n- Password incorrect\n- Session not set up\n\nSolution:\n1. Install: npm install passport passport-local\n2. Configure strategy: passport.use(new LocalStrategy(...))\n3. Use middleware: app.use(passport.initialize())\n4. Serialize user: passport.serializeUser(...)\n5. Request authentication: req.login(user, callback)" }

-- source match: /JSONP|jsonp|callback|padding/i
def pat136 : ErrorPattern :=
  { name := "EXPRESS_JSONP_ERROR"
  , branches :=
      [ [Atom.lit "JSONP"]
      , [Atom.lit "jsonp"]
      , [Atom.lit "callback"]
      , [Atom.lit "padding"] ]
  , template := "JSONP response error or misconfiguration.\n\nCommon causes:\n- JSONP not enabled\n- Invalid callback parameter\n- Wrong response format\n\nSolution:\n1. Enable: app.set(\x27jsonp callback name\x27, \x27callback\x27)\n2. Use res.jsonp(): res.jsonp(\x7b data \x7d)\n3. Client adds callback: ?callback=myFunc\n4. Server wraps: myFunc(\x7bdata\x7d)\n5. Validate callback name (security)" }

-- source match: /static.*file|send.*file|res\.sendFile|404.*file|Cannot GET.*\.js/i
def pat137 : ErrorPattern :=
  { name := "EXPRESS_STATIC_FILES_ERROR"
  , branches :=
      [ [Atom.lit "static", Atom.gap, Atom.lit "file"]
      , [Atom.lit "send", Atom.gap, Atom.lit "file"]
      , [Atom.lit "res.sendFile"]
      , [Atom.lit "404", Atom.gap, Atom.lit "file"]
      , [Atom.lit "Cannot GET", Atom.gap, Atom.lit ".js"] ]
  , template := "Static file serving error - file not found or access denied.\n\nCommon causes:\n- File not in static directory\n- Wrong path\n- Path traversal attempt blocked\n- Permission denied\n\nSolution:\n1. Serve static files: app.use(express.static(\x27public\x27))\n2. For sendFile: res.sendFile(\x27/path/to/file\x27)\n3. Use absolute path: path.join(__dirname, \x27public/file\x27)\n4. Check file exists before sendFile\n5. Security: validate paths, prevent traversal" }

-- source match: /method.?override|_method|X-HTTP-Method-Override|PUT.*not.*allowed/i
def pat138 : ErrorPattern :=
  { name := "EXPRESS_METHOD_OVERRIDE_ERROR"
  , branches :=
      [ [Atom.lit "method", Atom.anyOpt, Atom.lit "override"]
      , [Atom.lit "_method"]
      , [Atom.lit "X-HTTP-Method-Override"]
      , [Atom.lit "PUT", Atom.gap, Atom.lit "not", Atom.gap, Atom.lit "allowed"] ]
  , template := "Method override not working - HTTP method not overridden.\n\nCommon causes:\n- method-override not installed\n- Middleware not loaded\n- Wrong override header/param\n- PUT/DELETE not intended\n\nSolution:\n1. Install: npm install method-override\n2. Use: app.use(methodOverride(\x27_method\x27))\n3. Client sends: <input name=\"_method\" value=\"PUT\">\n4. Or header: X-HTTP-Method-Override: PUT\n5. Place before routes" }

-- source match: /request.*timeout|ETIMEDOUT|socket.*timeout|timeout.*request/i
def pat139 : ErrorPattern :=
  { name := "EXPRESS_REQUEST_TIMEOUT"
  , branches :=
      [ [Atom.lit "request", Atom.gap, Atom.lit "timeout"]
      , [Atom.lit "ETIMEDOUT"]
      , [Atom.lit "socket", Atom.gap, Atom.lit "timeout"]
      , [Atom.lit "timeout", Atom.gap, Atom.lit "request"] ]
  , template := "Express request timed out - took too long to complete.\n\nCommon causes:\n- Handler taking too long\n- Database query slow\n- External API hanging\n- No response sent\n\nSolution:\n1. Set timeout: server.setTimeout(30000)\n2. Implement request timeout middleware\n3. Use: const timeout = require(\x27connect-timeout\x27)\n4. Add timeout: app.use(timeout(\x275s\x27))\n5. Optimize slow operations" }

-- source match: /handlebars|HBS|template.*error|helper.*not.*found|partial.*error/i
def pat140 : ErrorPattern :=
  { name := "EXPRESS_HANDLEBARS_ERROR"
  , branches :=
      [ [Atom.lit "handlebars"]
      , [Atom.lit "HBS"]
      , [Atom.lit "template", Atom.gap, Atom.lit "error"]
      , [Atom.lit "helper", Atom.gap, Atom.lit "not", Atom.gap, Atom.lit "found"]
      , [Atom.lit "partial", Atom.gap, Atom.lit "error"] ]
  , template := "Express Handlebars template engine error.\n\nCommon causes:\n- Template file not found\n- Syntax error in template\n- Helper not registered\n- Partial not found\n\nSolution:\n1. Set engine: app.engine(\x27hbs\x27, require(\x27express-handlebars\x27)())\n2. Register helper: hbs.registerHelper(\x27name\x27, function()\x7b\x7d)\n3. Register partial: hbs.registerPartial(\x27name\x27, template)\n4. Check template syntax\n5. Verify partial exists" }

-- source match: /EJS|ejs.*error|ejs.*undefined|template.*render|ejs.*syntax/i
def pat141 : ErrorPattern :=
  { name := "EXPRESS_EJS_ERROR"
  , branches :=
      [ [Atom.lit "EJS"]
      , [Atom.lit "ejs", Atom.gap, Atom.lit "error"]
      , [Atom.lit "ejs", Atom.gap, Atom.lit "undefined"]
      , [Atom.lit "template", Atom.gap, Atom.lit "render"]
      , [Atom.lit "ejs", Atom.gap, Atom.lit "syntax"] ]
  , template := "Express EJS template engine error.\n\nCommon causes:\n- Variable not passed to template\n- Template syntax error\n- File not found\n- Encoding issue\n\nSolution:\n1. Set engine: app.set(\x27view engine\x27, \x27ejs\x27)\n2. Pass data: res.render(\x27template\x27, \x7b variable: value \x7d)\n3. In template use: <%= variable %>\n4. Check EJS syntax\n5. Verify variable passed from route" }

-- source match: /Pug|jade|pug.*error|indentation.*error|pug.*syntax/i
def pat142 : ErrorPattern :=
  { name := "EXPRESS_PUG_ERROR"
  , branches :=
      [ [Atom.lit "Pug"]
      , [Atom.lit "jade"]
      , [Atom.lit "pug", Atom.gap, Atom.lit "error"]
      , [Atom.lit "indentation", Atom.gap, Atom.lit "error"]
      , [Atom.lit "pug", Atom.gap, Atom.lit "syntax"] ]
  , template := "Express Pug template engine error.\n\nCommon causes:\n- Indentation error (Pug requires proper indentation)\n- Undefined variable\n- Syntax error\n- File not found\n\nSolution:\n1. Set engine: app.set(\x27view engine\x27, \x27pug\x27)\n2. Check indentation (spaces, not tabs)\n3. Pass variables: res.render(\x27template\x27, \x7b var: value \x7d)\n4. Use: p= variable\n5. Check Pug syntax is correct" }

-- source match: /JWT|json.*web.*token|token.*invalid|jwt.*error|token.*expired/i
def pat143 : ErrorPattern :=
  { name := "EXPRESS_JWT_ERROR"
  , branches :=
      [ [Atom.lit "JWT"]
      , [Atom.lit "json", Atom.gap, Atom.lit "web", Atom.gap, Atom.lit "token"]
      , [Atom.lit "token", Atom.gap, Atom.lit "invalid"]
      , [Atom.lit "jwt", Atom.gap, Atom.lit "error"]
      , [Atom.lit "token", Atom.gap, Atom.lit "expired"] ]
  , template := "JSON Web Token (JWT) authentication error.\n\nCommon causes:\n- Token invalid or expired\n- Token not provided\n- Wrong secret key\n- Signature verification failed\n\nSolution:\n1. Install: npm install jsonwebtoken\n2. Create token: jwt.sign(payload, secret, \x7b expiresIn: \x271h\x27 \x7d)\n3. Verify token: jwt.verify(token, secret)\n4. Use middleware: const token = req.headers.authorization?.split(\x27 \x27)[1]\n5. Handle expiration gracefully" }

-- source match: /redirect.*loop|infinite.*redirect|too.*many.*redirect|redirect.*chain/i
def pat144 : ErrorPattern :=
  { name := "EXPRESS_REDIRECT_CHAIN"
  , branches :=
      [ [Atom.lit "redirect", Atom.gap, Atom.lit "loop"]
      , [Atom.lit "infinite", Atom.gap, Atom.lit "redirect"]
      , [Atom.lit "too", Atom.gap, Atom.lit "many", Atom.gap, Atom.lit "redirect"]
      , [Atom.lit "redirect", Atom.gap, Atom.lit "chain"] ]
  , template := "Infinite redirect loop detected.\n\nCommon causes:\n- Route redirects to itself\n- A redirects to B, B redirects to A\n- Wrong redirect target\n- Middleware causing redirect loop\n\nSolution:\n1. Check redirect target: res.redirect(\x27/path\x27)\n2. Verify target route exists\n3. Ensure redirect logic is correct\n4. Avoid cycles: A\u2192B\u2192A\n5. Debug: console.log redirect targets" }

-- source match: /req\.query|query.*param|undefined.*query|query.*string/i
def pat145 : ErrorPattern :=
  { name := "EXPRESS_QUERY_PARAM_ERROR"
  , branches :=
      [ [Atom.lit "req.query"]
      , [Atom.lit "query", Atom.gap, Atom.lit "param"]
      , [Atom.lit "undefined", Atom.gap, Atom.lit "query"]
      , [Atom.lit "query", Atom.gap, Atom.lit "string"] ]
  , template := "Query parameter not accessible or undefined.\n\nCommon causes:\n- Query string not in URL\n- Typo in param name\n- Not checking if exists\n- Parser not configured\n\nSolution:\n1. Access: req.query.name\n2. Check exists: if (req.query.name)\n3. Provide default: req.query.page || 1\n4. Parse as needed: parseInt(req.query.page)\n5. Use: ?name=value&page=2" }

-- source match: /req\.params|route.*param|undefined.*param|param.*not.*found/i
def pat146 : ErrorPattern :=
  { name := "EXPRESS_ROUTE_PARAM_ERROR"
  , branches :=
      [ [Atom.lit "req.params"]
      , [Atom.lit "route", Atom.gap, Atom.lit "param"]
      , [Atom.lit "undefined", Atom.gap, Atom.lit "param"]
      , [Atom.lit "param", Atom.gap, Atom.lit "not", Atom.gap, Atom.lit "found"] ]
  , template := "Route parameter missing or undefined.\n\nCommon causes:\n- Route not defined with param\n- Param name mismatch\n- Route not matched\n- Typo in param access\n\nSolution:\n1. Define route: app.get(\x27/user/:id\x27, ...)\n2. Access: req.params.id\n3. Check param name matches route:id\n4. Validate param exists before use\n5. Convert if needed: parseInt(req.params.id)" }

-- source match: /x.?powered.?by|X-Powered-By|prevent.*disclosure/i
def pat147 : ErrorPattern :=
  { name := "EXPRESS_X_POWERED_BY"
  , branches :=
      [ [Atom.lit "x", Atom.anyOpt, Atom.lit "powered", Atom.anyOpt, Atom.lit "by"]
      , [Atom.lit "X-Powered-By"]
      , [Atom.lit "prevent", Atom.gap, Atom.lit "disclosure"] ]
  , template := "X-Powered-By header disclosure - security information leaked.\n\nCommon causes:\n- Header shows Express version\n- Security risk: attackers know stack\n- Not disabled\n\nSolution:\n1. Disable: app.disable(\x27x-powered-by\x27)\n2. Or use Helmet: app.use(helmet())\n3. Hide server info from headers\n4. Don\x27t expose technology stack\n5. Set custom Server header if needed" }

-- source match: /case.?sensitive|routing.*case|case.*insensitive/i
def pat148 : ErrorPattern :=
  { name := "EXPRESS_CASE_SENSITIVE_ROUTING"
  , branches :=
      [ [Atom.lit "case", Atom.anyOpt, Atom.lit "sensitive"]
      , [Atom.lit "routing", Atom.gap, Atom.lit "case"]
      , [Atom.lit "case", Atom.gap, Atom.lit "insensitive"] ]
  , template := "Route case sensitivity issue - /Path and /path treated differently.\n\nCommon causes:\n- Case-sensitive routing enabled\n- Client uses wrong case\n- Route defined differently\n\nSolution:\n1. Enable case insensitive: app.set(\x27case sensitive routing\x27, false)\n2. Or disable: app.set(\x27case sensitive routing\x27, false)\n3. Consistent route naming\n4. Test with different cases\n5. Default is case sensitive" }

-- source match: /strict.*routing|trailing.*slash|\/path\/ vs \/path/i
def pat149 : ErrorPattern :=
  { name := "EXPRESS_STRICT_ROUTING"
  , branches :=
      [ [Atom.lit "strict", Atom.gap, Atom.lit "routing"]
      , [Atom.lit "trailing", Atom.gap, Atom.lit "slash"]
      , [Atom.lit "/path/ vs /path"] ]
  , template := "Strict routing enabled - trailing slash matters.\n\nCommon causes:\n- /path and /path/ treated differently\n- Strict routing enabled\n- Missing trailing slash\n\nSolution:\n1. Disable strict: app.set(\x27strict routing\x27, false)\n2. Or handle both: app.get(\x27/path\x27, ...) and app.get(\x27/path/\x27, ...)\n3. Redirect: app.get(\x27/path\x27, (req, res) => res.redirect(\x27/path/\x27))\n4. Be consistent in URLs\n5. Default is disabled (not strict)" }

-- source match: /ETag|weak.*ETag|strong.*ETag|304.*Not Modified/i
def pat150 : ErrorPattern :=
  { name := "EXPRESS_ETAG_ERROR"
  , branches :=
      [ [Atom.lit "ETag"]
      , [Atom.lit "weak", Atom.gap, Atom.lit "ETag"]
      , [Atom.lit "strong", Atom.gap, Atom.lit "ETag"]
      , [Atom.lit "304", Atom.gap, Atom.lit "Not Modified"] ]
  , template := "Entity tag (ETag) issue - caching problem.\n\nCommon causes:\n- ETag mismatch\n- If-None-Match not handled\n- Cache control issue\n\nSolution:\n1. Use: app.set(\x27etag\x27, true)\n2. Express generates by default\n3. Disable if issues: app.disable(\x27etag\x27)\n4. Client sends: If-None-Match: <etag>\n5. Respond 304 if matches" }

-- source match: /Vary.*header|Accept-Encoding|Accept-Language|vary|cache.*vary/i
def pat151 : ErrorPattern :=
  { name := "EXPRESS_VARY_HEADER"
  , branches :=
      [ [Atom.lit "Vary", Atom.gap, Atom.lit "header"]
      , [Atom.lit "Accept-Encoding"]
      , [Atom.lit "Accept-Language"]
      , [Atom.lit "vary"]
      , [Atom.lit "cache", Atom.gap, Atom.lit "vary"] ]
  , template := "Vary header issue - caching with multiple conditions.\n\nCommon causes:\n- Missing Vary header for conditional responses\n- Proxy caching issue\n- Response varies by Accept-* headers\n\nSolution:\n1. Set Vary header: res.vary(\x27Accept-Encoding\x27)\n2. For multiple: res.vary(\x27Accept-Encoding, Accept-Language\x27)\n3. Express adds by default in some cases\n4. Ensures proper caching\n5. Tells caches response depends on header" }

-- source match: /Link.*header|preload|rel=preload|link.*rel/i
def pat152 : ErrorPattern :=
  { name := "EXPRESS_LINK_HEADER"
  , branches :=
      [ [Atom.lit "Link", Atom.gap, Atom.lit "header"]
      , [Atom.lit "preload"]
      , [Atom.lit "rel=preload"]
      , [Atom.lit "link", Atom.gap, Atom.lit "rel"] ]
  , template := "HTTP Link header issue - preload or resource hints.\n\nCommon causes:\n- Preload header not working\n- Wrong syntax\n- Browser doesn\x27t support\n\nSolution:\n1. Add Link header: res.setHeader(\x27Link\x27, \x27<style.css>; rel=preload; as=style\x27)\n2. Preload resources for performance\n3. Format: <url>; rel=relation; attr=value\n4. Modern browsers support preload\n5. Improves page load performance" }

-- source match: /Accept.*header|accepts|req\.accepts|content.*negotiation/i
def pat153 : ErrorPattern :=
  { name := "EXPRESS_ACCEPT_HEADER"
  , branches :=
      [ [Atom.lit "Accept", Atom.gap, Atom.lit "header"]
      , [Atom.lit "accepts"]
      , [Atom.lit "req.accepts"]
      , [Atom.lit "content", Atom.gap, Atom.lit "negotiation"] ]
  , template := "Request Accept header negotiation error or mismatch.\n\nCommon causes:\n- Content type not accepted by client\n- Accept header not set properly\n- No matching content type\n\nSolution:\n1. Check: req.accepts(\x27json\x27), req.accepts(\x27html\x27)\n2. Use: app.get(\x27/\x27, (req, res) => \x7b\n   if (req.accepts(\x27json\x27)) res.json(\x7b\x7d)\n   else res.send(\x27\x27);\n3. Client sets Accept header\n4. Negotiate content type\n5. Return 406 if can\x27t negotiate" }

-- source match: /gateway.*timeout|502.*gateway|upstream.*timeout|gateway.*error/i
def pat154 : ErrorPattern :=
  { name := "EXPRESS_GATEWAY_TIMEOUT"
  , branches :=
      [ [Atom.lit "gateway", Atom.gap, Atom.lit "timeout"]
      , [Atom.lit "502", Atom.gap, Atom.lit "gateway"]
      , [Atom.lit "upstream", Atom.gap, Atom.lit "timeout"]
      , [Atom.lit "gateway", Atom.gap, Atom.lit "error"] ]
  , template := "Gateway timeout when proxying requests - upstream service too slow.\n\nCommon causes:\n- Upstream service slow\n- Timeout too short\n- Service not responding\n\nSolution:\n1. Increase proxy timeout\n2. Use http-proxy-middleware\n3. Add: proxyReq.setTimeout(30000)\n4. Check upstream service status\n5. Add error handling for proxy" }

-- source match: /no.*catch.*all|final.*middleware|404.*handler|unhandled.*route/i
def pat155 : ErrorPattern :=
  { name := "EXPRESS_NO_CATCH_ALL"
  , branches :=
      [ [Atom.lit "no", Atom.gap, Atom.lit "catch", Atom.gap, Atom.lit "all"]
      , [Atom.lit "final", Atom.gap, Atom.lit "middleware"]
      , [Atom.lit "404", Atom.gap, Atom.lit "handler"]
      , [Atom.lit "unhandled", Atom.gap, Atom.lit "route"] ]
  , template := "No catch-all 404 handler defined - unmatched routes not handled.\n\nCommon causes:\n- 404 middleware not added\n- 404 handler after routes\n- Routes not properly matched\n\nSolution:\n1. Add at end of routes:\n   app.use((req, res) => res.status(404).send(\x27Not Found\x27))\n2. Or: app.use(\x27*\x27, (req, res) => res.status(404))\n3. Place after all other routes\n4. Provide user-friendly 404 page\n5. Log 404s for debugging" }

-- source match: /error|failed|exception/i
def pat156 : ErrorPattern :=
  { name := "GENERAL_ERROR"
  , branches := [[Atom.lit "error"], [Atom.lit "failed"], [Atom.lit "exception"]]
  , template := "A general error occurred. Check the error message and stack trace above.\n\nThis is caught by the generic catch-all pattern.\n\nSolution:\n1. Read the full error message carefully\n2. Look at the stack trace to find where error originated\n3. Check the file and line numbers\n4. Search error message online with project name\n5. Ask for help with complete error details" }

/-- The ordered pattern table `errorPatterns` (errorPatterns.js, 157 entries). -/
def errorPatterns : List ErrorPattern :=
  [ pat0, pat1, pat2, pat3, pat4, pat5, pat6, pat7, pat8, pat9
  , pat10, pat11, pat12, pat13, pat14, pat15, pat16, pat17, pat18, pat19
  , pat20, pat21, pat22, pat23, pat24, pat25, pat26, pat27, pat28, pat29
  , pat30, pat31, pat32, pat33, pat34, pat35, pat36, pat37, pat38, pat39
  , pat40, pat41, pat42, pat43, pat44, pat45, pat46, pat47, pat48, pat49
  , pat50, pat51, pat52, pat53, pat54, pat55, pat56, pat57, pat58, pat59
  , pat60, pat61, pat62, pat63, pat64, pat65, pat66, pat67, pat68, pat69
  , pat70, pat71, pat72, pat73, pat74, pat75, pat76, pat77, pat78, pat79
  , pat80, pat81, pat82, pat83, pat84, pat85, pat86, pat87, pat88, pat89
  , pat90, pat91, pat92, pat93, pat94, pat95, pat96, pat97, pat98, pat99
  , pat100, pat101, pat102, pat103, pat104, pat105, pat106, pat107, pat108, pat109
  , pat110, pat111, pat112, pat113, pat114, pat115, pat116, pat117, pat118, pat119
  , pat120, pat121, pat122, pat123, pat124, pat125, pat126, pat127, pat128, pat129
  , pat130, pat131, pat132, pat133, pat134, pat135, pat136, pat137, pat138, pat139
  , pat140, pat141, pat142, pat143, pat144, pat145, pat146, pat147, pat148, pat149
  , pat150, pat151, pat152, pat153, pat154, pat155, pat156 ]

/-- `findErrorPattern` (errorPatterns.js): first entry whose regex tests
true against the error text; falls back to the last table entry
(`errorPatterns[errorPatterns.length - 1]`) when none matches. -/
def findErrorPattern (errorText : String) : ErrorPattern :=
  match errorPatterns.find? (fun p => testRegex p.branches errorText) with
  | some p => p
  | none => errorPatterns.getD (errorPatterns.length - 1) pat156

/-- `getErrorExplanation` (errorPatterns.js). -/
def getErrorExplanation (errorText : String) : String :=
  (findErrorPattern errorText).explain errorText

/-- `explainWithNormal` (explainer/normal.js): delegates to
`getErrorExplanation`; the surrounding try/catch only fires if
`getErrorExplanation` throws, which it cannot (it is a total lookup). -/
def explainWithNormal (errorText : String) : String :=
  getErrorExplanation errorText


/-! ## Configuration and the explainer router -/

/-- The `gemini` sub-record of the configuration (config.js,
`getDefaultConfig`). -/
structure GeminiConfig where
  endpoint : String
  apiKey : String
deriving DecidableEq, Repr

/-- The configuration record (config.js).  `mode := none` models a
missing (`undefined`) `mode` property. -/
structure Config where
  mode : Option String
  gemini : GeminiConfig
  autoRestart : Bool
  ignorePatterns : List String
  timeout : Nat
deriving DecidableEq, Repr

/-- The outcome of `await explainWithGemini(...)`
(explainer/gemini.js): either a returned explanation text or a thrown
error carrying its message. -/
inductive GeminiOutcome where
  | ok (text : String)
  | failure (message : String)
deriving DecidableEq, Repr

/-- `config.mode || 'normal'` — JavaScript `||` falls through to the
default on the falsy mode values `undefined` and the empty string. -/
def effectiveMode (c : Config) : String :=
  match c.mode with
  | none => "normal"
  | some m => if m = "" then "normal" else m

/-- The router `explain(errorText, config)` (explainer/index.js, bundled
at the end of runner.js).  `Except.error` models an exception reaching
the caller; the outcome of the single remote call the gemini branch may
make is supplied as `geminiOutcome`.  A gemini failure is caught: the
router logs a warning and returns the local backend result instead. -/
def explain (geminiOutcome : GeminiOutcome) (errorText : String)
    (config : Option Config) : Except String String :=
  match config with
  | none => Except.error "Configuration is required"
  | some c =>
    let mode := effectiveMode c
    if mode = "gemini" then
      match geminiOutcome with
      | GeminiOutcome.ok text => Except.ok text
      | GeminiOutcome.failure _ => Except.ok (explainWithNormal errorText)
    else if mode = "normal" then
      Except.ok (explainWithNormal errorText)
    else
      Except.error ("Unknown explanation mode: " ++ mode)

/-! ## The Runner (runner.js) and the interactive prompt state -/

/-- State of the interactive prompt (module state of
explainer/interactive.js: the `cancelPrompt` flag and
`activePromptResolver`; the spec calls this the PendingPrompt).
`awaitingInput` corresponds to a stored, unresolved resolver. -/
inductive PromptState where
  | idle
  | awaitingInput
  | resolvedYes
  | resolvedNo
  | cancelled
deriving DecidableEq, Repr

/-- Externally visible effects of one `Runner` step. -/
inductive RAction where
  | killChild (signal : String)
  | spawnChild
  | closeWatcher
  | createWatcher
  | logRestart (reason : String)
deriving DecidableEq, Repr

/-- The mutable fields of a `Runner` (runner.js constructor, lines
17-28) together with the prompt state of explainer/interactive.js.
`childAlive` models `this.child !== null`; `childKilled` models
`this.child.killed` (some termination signal was already sent);
`watcherActive` models `this.watcher !== null`. -/
structure RunnerState where
  childAlive : Bool
  childKilled : Bool
  watcherActive : Bool
  isRestarting : Bool
  lastErrorExplanationTime : Nat
  isProcessExiting : Bool
  prompt : PromptState
deriving DecidableEq, Repr

/-- `cancelActivePrompt` (interactive.js, lines 153-158): sets the
module-level `cancelPrompt` flag and, when a prompt is awaiting input
(a resolver is stored), resolves it as cancelled.  The function is
exported but has no call site in any module of the repository. -/
def cancelActivePrompt (s : RunnerState) : RunnerState :=
  if s.prompt = PromptState.awaitingInput then
    { s with prompt := PromptState.cancelled }
  else s

namespace Runner

/-- `stop()` (runner.js, lines 177-187): close the watcher if present
and terminate the child if present. -/
def stop (s : RunnerState) : RunnerState × List RAction :=
  let (s1, a1) :=
    if s.watcherActive then
      ({ s with watcherActive := false }, [RAction.closeWatcher])
    else (s, [])
  if s1.childAlive then
    ({ s1 with childAlive := false, childKilled := true },
      a1 ++ [RAction.killChild "SIGTERM"])
  else (s1, a1)

/-- `setupWatcher()` (runner.js, lines 118-141): close any previous
watcher and create a new one whose change handler is `onWatcherChange`
below. -/
def setupWatcher (s : RunnerState) : RunnerState × List RAction :=
  let (s1, a1) :=
    if s.watcherActive then
      ({ s with watcherActive := false }, [RAction.closeWatcher])
    else (s, [])
  ({ s1 with watcherActive := true }, a1 ++ [RAction.createWatcher])

/-- `start()` (runner.js, lines 33-105): stop any running child, spawn
the target script, wire the output handlers and set up the watcher. -/
def start (s : RunnerState) : RunnerState × List RAction :=
  let (s1, a1) := if s.childAlive then stop s else (s, [])
  let s2 := { s1 with childAlive := true, childKilled := false }
  let (s3, a3) := setupWatcher s2
  (s3, a1 ++ [RAction.spawnChild] ++ a3)

/-- The synchronous body of `restart(reason)` (runner.js, lines
146-172): the re-entrancy guard, then either a graceful SIGTERM with
the grace timers scheduled (child present; callbacks modelled by
`restartGraceStep` and `restartSettleStep` below) or, with no child,
clearing the flag again and calling `start()` at once. -/
def restart (s : RunnerState) (reason : String) : RunnerState × List RAction :=
  if s.isRestarting then (s, [])
  else if s.childAlive then
    ({ s with isRestarting := true, childKilled := true },
      [RAction.killChild "SIGTERM"])
  else
    start { s with isRestarting := false }

/-- The 500 ms grace-timer callback scheduled by `restart` (runner.js,
lines 155-158): force-kill the child if it is still alive and no signal
was delivered yet. -/
def restartGraceStep (s : RunnerState) : RunnerState × List RAction :=
  if s.childAlive && !s.childKilled then
    ({ s with childKilled := true }, [RAction.killChild "SIGKILL"])
  else (s, [])

/-- The nested 100 ms settle-timer callback (runner.js, lines 160-166):
clear the restart flag, log the reason if non-empty, and `start()`
again. -/
def restartSettleStep (s : RunnerState) (reason : String) :
    RunnerState × List RAction :=
  let s1 := { s with isRestarting := false }
  let logs := if reason ≠ "" then [RAction.logRestart reason] else []
  let (s2, a2) := start s1
  (s2, logs ++ a2)

/-- The complete restart sequence: the synchronous body of
`restart(reason)` followed, when the child branch scheduled them, by
the grace and settle timer callbacks in order. -/
def restartSequence (s : RunnerState) (reason : String) :
    RunnerState × List RAction :=
  if s.isRestarting then (s, [])
  else if s.childAlive then
    let (s1, a1) := restart s reason
    let (s2, a2) := restartGraceStep s1
    let (s3, a3) := restartSettleStep s2 reason
    (s3, a1 ++ a2 ++ a3)
  else restart s reason

/-- The chokidar change handler installed by `setupWatcher`
(runner.js, lines 138-140).  The runner's configuration — including
`autoRestart` — is reachable from the handler as `this.config`, but the
handler body consults none of it: it is exactly
`this.restart("File changed: " + path)`. -/
def onWatcherChange (config : Config) (s : RunnerState) (path : String) :
    RunnerState × List RAction :=
  restart s ("File changed: " ++ path)

/-- `explainErrorWithDebounce(errorText)` (runner.js, lines 224-238).
`now` is `Date.now()` at entry; the returned Bool tells whether
`showInteractiveExplainer` is invoked.  The guard mirrors
`this.lastErrorExplanationTime && (now - this.lastErrorExplanationTime) < 500`
(`0` is falsy; subtraction of a later timestamp is negative in
JavaScript and hence below 500, just as truncated `Nat` subtraction
yields 0). -/
def explainErrorWithDebounce (s : RunnerState) (now : Nat) :
    RunnerState × Bool :=
  if s.lastErrorExplanationTime ≠ 0 ∧ now - s.lastErrorExplanationTime < 500 then
    (s, false)
  else
    let s1 := { s with lastErrorExplanationTime := now }
    if s1.isProcessExiting then (s1, false)
    else (s1, true)

end Runner

/-! ## Concrete instances used by the witnesses -/

/-- A concrete runner state: healthy child, watcher active, no restart
in progress, interactive prompt awaiting input. -/
def sampleState : RunnerState :=
  { childAlive := true, childKilled := false, watcherActive := true
  , isRestarting := false, lastErrorExplanationTime := 0
  , isProcessExiting := false, prompt := PromptState.awaitingInput }

/-- The default configuration (config.js, `getDefaultConfig`). -/
def sampleConfig : Config :=
  { mode := some "normal"
  , gemini := { endpoint := "", apiKey := "" }
  , autoRestart := true
  , ignorePatterns := ["node_modules", ".git", ".env"]
  , timeout := 60000 }

/-- The default configuration with an unrecognized mode string. -/
def unknownModeConfig : Config := { sampleConfig with mode := some "verbose" }

/-- The default configuration switched to gemini mode. -/
def geminiModeConfig : Config := { sampleConfig with mode := some "gemini" }

/-! ## Shared helper lemmas -/

/-- Every template in the pattern table is non-empty. -/
theorem errorPatterns_template_ne_empty :
    ∀ p ∈ errorPatterns, p.template ≠ "" := by decide

/-- `stop` does not touch the prompt state. -/
theorem stop_prompt (s : RunnerState) : (Runner.stop s).1.prompt = s.prompt := by
  cases hw : s.watcherActive <;> cases hc : s.childAlive <;>
    simp [Runner.stop, hw, hc]

/-- `setupWatcher` does not touch the prompt state. -/
theorem setupWatcher_prompt (s : RunnerState) :
    (Runner.setupWatcher s).1.prompt = s.prompt := by
  cases hw : s.watcherActive <;> simp [Runner.setupWatcher, hw]

/-- `start` does not touch the prompt state. -/
theorem start_prompt (s : RunnerState) : (Runner.start s).1.prompt = s.prompt := by
  cases hc : s.childAlive <;> cases hw : s.watcherActive <;>
    simp [Runner.start, Runner.stop, Runner.setupWatcher, hc, hw]

/-- The synchronous body of `restart` does not touch the prompt state. -/
theorem restart_prompt (s : RunnerState) (reason : String) :
    (Runner.restart s reason).1.prompt = s.prompt := by
  cases hr : s.isRestarting <;> cases hc : s.childAlive <;> cases hw : s.watcherActive <;>
    simp [Runner.restart, Runner.start, Runner.stop, Runner.setupWatcher, hr, hc, hw]

/-- The grace-timer callback does not touch the prompt state. -/
theorem restartGraceStep_prompt (s : RunnerState) :
    (Runner.restartGraceStep s).1.prompt = s.prompt := by
  by_cases h : s.childAlive && !s.childKilled <;> simp [Runner.restartGraceStep, h]

/-- The settle-timer callback does not touch the prompt state. -/
theorem restartSettleStep_prompt (s : RunnerState) (reason : String) :
    (Runner.restartSettleStep s reason).1.prompt = s.prompt := by
  cases hc : s.childAlive <;> cases hw : s.watcherActive <;>
    simp [Runner.restartSettleStep, Runner.start, Runner.stop,
      Runner.setupWatcher, hc, hw]

/-- The whole restart sequence does not touch the prompt state. -/
theorem restartSequence_prompt (s : RunnerState) (reason : String) :
    (Runner.restartSequence s reason).1.prompt = s.prompt := by
  cases hr : s.isRestarting <;> cases hc : s.childAlive <;> cases hw : s.watcherActive <;>
    simp [Runner.restartSequence, Runner.restart, Runner.restartGraceStep,
      Runner.restartSettleStep, Runner.start, Runner.stop,
      Runner.setupWatcher, hr, hc, hw]

/-! ## The claims -/

/-- Claim C1 (code bug): contrary to the claim, `restart()` in runner.js
never cancels a pending interactive prompt — `cancelActivePrompt` has no
call site anywhere in the repository — so a prompt that is awaiting
input when a restart is issued is still awaiting input, and in
particular not cancelled, after the entire restart sequence has run. -/
theorem restart_leaves_prompt_awaiting (s : RunnerState) (reason : String)
    (h : s.prompt = PromptState.awaitingInput) :
    (Runner.restartSequence s reason).1.prompt = PromptState.awaitingInput ∧
    (Runner.restartSequence s reason).1.prompt ≠ PromptState.cancelled := by
  have hp := restartSequence_prompt s reason
  rw [hp, h]
  exact ⟨rfl, by decide⟩

/-- Claim C1, witness: the theorem applied to a concrete healthy session
with a prompt awaiting input. -/
theorem restart_leaves_prompt_awaiting_witness :
    sampleState.prompt = PromptState.awaitingInput ∧
    (Runner.restartSequence sampleState "File changed: app.js").1.prompt =
      PromptState.awaitingInput :=
  ⟨rfl, (restart_leaves_prompt_awaiting sampleState "File changed: app.js" rfl).1⟩

/-- Claim C2 (code bug): the watcher change handler restarts regardless
of `autoRestart`: even with `autoRestart = false` in the configuration,
a change event on a healthy non-restarting session initiates a restart
(the restart flag is set and a SIGTERM is sent to the child). -/
theorem fileChange_restarts_despite_autoRestart_off
    (config : Config) (s : RunnerState) (path : String)
    (hauto : config.autoRestart = false)
    (hguard : s.isRestarting = false) (hchild : s.childAlive = true) :
    (Runner.onWatcherChange config s path).1.isRestarting = true ∧
    RAction.killChild "SIGTERM" ∈ (Runner.onWatcherChange config s path).2 := by
  simp [Runner.onWatcherChange, Runner.restart, hguard, hchild]

/-- Claim C2, witness: concrete configuration with `autoRestart = false`
and a healthy session. -/
theorem fileChange_restarts_despite_autoRestart_off_witness :
    ({ sampleConfig with autoRestart := false } : Config).autoRestart = false ∧
    (Runner.onWatcherChange { sampleConfig with autoRestart := false }
        sampleState "app.js").1.isRestarting = true :=
  ⟨rfl, (fileChange_restarts_despite_autoRestart_off
          { sampleConfig with autoRestart := false } sampleState "app.js"
          rfl rfl rfl).1⟩

/-- Claim C3, counterexample: a present configuration whose mode is the
unrecognized string "verbose" makes `explain` throw, refuting "fails
only if configuration is entirely absent". -/
theorem explain_throws_on_unknown_mode :
    some unknownModeConfig ≠ (none : Option Config) ∧
    explain (GeminiOutcome.ok "g") "boom" (some unknownModeConfig) =
      Except.error "Unknown explanation mode: verbose" :=
  ⟨by simp, rfl⟩

/-- Claim C3 (amended): `explain(errorText, config)` throws iff the
configuration is entirely absent or its defaulted mode is neither
"normal" nor "gemini"; for every other present configuration it returns
an explanation without throwing. -/
theorem explain_error_characterization (g : GeminiOutcome) (e : String)
    (oc : Option Config) :
    (∃ msg, explain g e oc = Except.error msg) ↔
      (oc = none ∨ ∃ c, oc = some c ∧
        effectiveMode c ≠ "normal" ∧ effectiveMode c ≠ "gemini") := by
  cases oc with
  | none => simp [explain]
  | some c =>
    by_cases hg : effectiveMode c = "gemini"
    · cases g <;> simp [explain, hg]
    · by_cases hn : effectiveMode c = "normal"
      · simp [explain, hn, hg]
      · simp [explain, hg, hn]

/-- Claim C4: with a gemini-mode configuration, every remote failure is
swallowed by the router and the returned value is exactly the local
pattern backend's output for the same error text. -/
theorem gemini_failure_returns_local_result (msg errorText : String)
    (c : Config) (hmode : c.mode = some "gemini") :
    explain (GeminiOutcome.failure msg) errorText (some c) =
      Except.ok (explainWithNormal errorText) := by
  have hm : effectiveMode c = "gemini" := by simp [effectiveMode, hmode]
  simp [explain, hm]

/-- Claim C4, witness: a concrete gemini-mode configuration and a
concrete remote failure. -/
theorem gemini_failure_returns_local_result_witness :
    geminiModeConfig.mode = some "gemini" ∧
    explain (GeminiOutcome.failure "ECONNREFUSED")
        "TypeError: x is not a function" (some geminiModeConfig) =
      Except.ok (explainWithNormal "TypeError: x is not a function") :=
  ⟨rfl, gemini_failure_returns_local_result "ECONNREFUSED"
          "TypeError: x is not a function" geminiModeConfig rfl⟩

/-- Claim C5: two candidate error triggers whose timestamps are less
than 500 ms apart invoke the interactive explanation pipeline at most
once — the second one is suppressed by the debounce guard against the
timestamp recorded by the first. -/
theorem debounce_single_invocation (s : RunnerState) (t1 t2 : Nat)
    (h1 : 0 < t1) (h12 : t2 - t1 < 500) :
    ¬((Runner.explainErrorWithDebounce s t1).2 = true ∧
      (Runner.explainErrorWithDebounce
        (Runner.explainErrorWithDebounce s t1).1 t2).2 = true) := by
  rintro ⟨hb1, hb2⟩
  by_cases hd : s.lastErrorExplanationTime ≠ 0 ∧ t1 - s.lastErrorExplanationTime < 500
  · simp [Runner.explainErrorWithDebounce, hd] at hb1
  · by_cases hp : s.isProcessExiting
    · simp [Runner.explainErrorWithDebounce, hd, hp] at hb1
    · have hs1 : (Runner.explainErrorWithDebounce s t1).1
          = { s with lastErrorExplanationTime := t1 } := by
        simp [Runner.explainErrorWithDebounce, hd, hp]
      rw [hs1] at hb2
      have hcond : ({ s with lastErrorExplanationTime := t1 } :
            RunnerState).lastErrorExplanationTime ≠ 0 ∧
          t2 - ({ s with lastErrorExplanationTime := t1 } :
            RunnerState).lastErrorExplanationTime < 500 := by
        simp
        omega
      simp [Runner.explainErrorWithDebounce, hcond] at hb2

/-- Claim C5, witness: triggers at 1000 ms and 1300 ms. -/
theorem debounce_single_invocation_witness :
    (0 < 1000 ∧ 1300 - 1000 < 500) ∧
    ¬((Runner.explainErrorWithDebounce sampleState 1000).2 = true ∧
      (Runner.explainErrorWithDebounce
        (Runner.explainErrorWithDebounce sampleState 1000).1 1300).2 = true) :=
  ⟨by decide, debounce_single_invocation sampleState 1000 1300
    (by decide) (by decide)⟩

/-- Claim C6: calling `restart()` while the restart-in-progress flag is
set is a no-op — the state is unchanged and no action (no signal, no
spawn) is emitted, by the synchronous body and hence by the whole
sequence. -/
theorem restart_reentrant_noop (s : RunnerState) (reason : String)
    (h : s.isRestarting = true) :
    Runner.restart s reason = (s, []) ∧
    Runner.restartSequence s reason = (s, []) := by
  constructor <;> simp [Runner.restart, Runner.restartSequence, h]

/-- Claim C6, witness: a concrete state already restarting. -/
theorem restart_reentrant_noop_witness :
    ({ sampleState with isRestarting := true } : RunnerState).isRestarting = true ∧
    Runner.restart { sampleState with isRestarting := true } "x" =
      ({ sampleState with isRestarting := true }, []) :=
  ⟨rfl, (restart_reentrant_noop { sampleState with isRestarting := true } "x" rfl).1⟩

/-- Claim C7: for every non-empty error text the local pattern backend
produces a non-empty explanation: either some table entry matches and
every template is non-empty, or the lookup falls back to the final
catch-all entry, whose template is non-empty as well. -/
theorem local_backend_total_nonempty (errorText : String)
    (h : errorText ≠ "") : getErrorExplanation errorText ≠ "" := by
  unfold getErrorExplanation ErrorPattern.explain findErrorPattern
  cases hf : errorPatterns.find? (fun p => testRegex p.branches errorText) with
  | some p =>
    simp only [hf]
    exact errorPatterns_template_ne_empty p (List.mem_of_find?_eq_some hf)
  | none =>
    simp only [hf]
    decide

/-- Claim C7, witness: a concrete non-empty input with no recognized
signal. -/
theorem local_backend_total_nonempty_witness :
    ("flibbertigibbet" : String) ≠ "" ∧
    getErrorExplanation "flibbertigibbet" ≠ "" :=
  ⟨by decide, local_backend_total_nonempty "flibbertigibbet" (by decide)⟩

/-- Claim C8: the scenario lookups of the spec — a null-property
TypeError maps to the TYPE_ERROR entry (pat2), a missing-module error to
the MODULE_NOT_FOUND entry (pat0), and "flibbertigibbet", which matches
no table regex at all, to the GENERAL_ERROR catch-all (pat156). -/
theorem pattern_lookup_scenarios :
    (findErrorPattern
      "TypeError: Cannot read properties of null (reading \x27method\x27)").name
        = "TYPE_ERROR" ∧
    getErrorExplanation
      "TypeError: Cannot read properties of null (reading \x27method\x27)"
        = pat2.template ∧
    (findErrorPattern "Error: Cannot find module \x27./x\x27").name
        = "MODULE_NOT_FOUND" ∧
    getErrorExplanation "Error: Cannot find module \x27./x\x27" = pat0.template ∧
    (findErrorPattern "flibbertigibbet").name = "GENERAL_ERROR" ∧
    getErrorExplanation "flibbertigibbet" = pat156.template :=
  ⟨by decide, by decide, by decide, by decide, by decide, by decide⟩

/-- Claim C9: a trigger that passes the 500 ms debounce check but is
then suppressed by the process-exiting flag still overwrites the
last-trigger timestamp with its own arrival time, so a later trigger
within 500 ms of it is also suppressed although neither produced an
explanation. -/
theorem suppressed_trigger_updates_timestamp (s : RunnerState) (t t' : Nat)
    (hexit : s.isProcessExiting = true)
    (hpass : ¬(s.lastErrorExplanationTime ≠ 0 ∧
      t - s.lastErrorExplanationTime < 500))
    (ht : 0 < t) (ht' : t' - t < 500) :
    (Runner.explainErrorWithDebounce s t).2 = false ∧
    (Runner.explainErrorWithDebounce s t).1.lastErrorExplanationTime = t ∧
    (Runner.explainErrorWithDebounce
      (Runner.explainErrorWithDebounce s t).1 t').2 = false := by
  have h1 : Runner.explainErrorWithDebounce s t
      = ({ s with lastErrorExplanationTime := t }, false) := by
    simp [Runner.explainErrorWithDebounce, hpass, hexit]
  refine ⟨by simp [h1], by simp [h1], ?_⟩
  rw [h1]
  have hcond : ({ s with lastErrorExplanationTime := t } :
        RunnerState).lastErrorExplanationTime ≠ 0 ∧
      t' - ({ s with lastErrorExplanationTime := t } :
        RunnerState).lastErrorExplanationTime < 500 := by
    simp
    omega
  simp [Runner.explainErrorWithDebounce, hcond]

/-- Claim C9, witness: an exiting session, a first trigger at 1000 ms
passing the debounce check, and a second trigger at 1300 ms. -/
theorem suppressed_trigger_updates_timestamp_witness :
    ({ sampleState with isProcessExiting := true } :
      RunnerState).isProcessExiting = true ∧
    (Runner.explainErrorWithDebounce
      { sampleState with isProcessExiting := true } 1000).1.lastErrorExplanationTime
        = 1000 :=
  ⟨rfl, (suppressed_trigger_updates_timestamp
          { sampleState with isProcessExiting := true } 1000 1300
          rfl (by decide) (by decide) (by decide)).2.1⟩

/-- Claim C10: `getErrorExplanation` is total over all strings: whenever
no table entry matches — in particular on the empty string, which even
the catch-all regex does not match — the lookup returns the final
GENERAL_ERROR entry through the last-entry fallback. -/
theorem no_match_falls_back_to_general (errorText : String)
    (h : ∀ p ∈ errorPatterns, testRegex p.branches errorText = false) :
    findErrorPattern errorText = pat156 ∧
    getErrorExplanation errorText = pat156.template := by
  have hf : errorPatterns.find? (fun p => testRegex p.branches errorText)
      = none := by
    rw [List.find?_eq_none]
    intro p hp
    simp [h p hp]
  constructor
  · unfold findErrorPattern
    simp only [hf]
    decide
  · unfold getErrorExplanation ErrorPattern.explain findErrorPattern
    simp only [hf]
    decide

/-- Claim C10, witness: the empty string matches no table regex (the
catch-all included) and still yields the GENERAL_ERROR entry. -/
theorem no_match_falls_back_to_general_witness :
    (∀ p ∈ errorPatterns, testRegex p.branches "" = false) ∧
    findErrorPattern "" = pat156 :=
  ⟨by decide, (no_match_falls_back_to_general "" (by decide)).1⟩
